import Mathlib

/-!
Shallow embedding of the rover base-station protocol/state layer
(`src/xbee/core/communication.py`, `controller_manager.py`, `heartbeat.py`,
`message_system.py`, constants from `src/xbee/CommandCodes.py`).

Python `dict` objects keyed by integers are embedded as association lists
`List (Nat × Nat)`; `dict.get(k, default)` is `dictGet`.  Controller value
dictionaries hold heterogeneous values in Python (single `bytes` for axes,
plain `int` for buttons); here every entry is stored as the corresponding
numeric value (a length-1 bytes object `b` is stored as `int.from_bytes(b)`),
which is exactly how the codec consumes it.
-/

/-- Embedding of a Python `dict` with integer keys and (numeric) values. -/
abbrev Dict := List (Nat × Nat)

/-- Embeds `d.get(k, dflt)` on a Python dict. -/
def dictGet (d : Dict) (k dflt : Nat) : Nat :=
  (d.lookup k).getD dflt

/-- Embeds `d[k] = v` on a Python dict (replace if present, append otherwise;
only the resulting lookup behaviour is relied on). -/
def dictInsert (d : Dict) (k v : Nat) : Dict :=
  if (d.lookup k).isSome then
    d.map (fun p => if p.1 = k then (k, v) else p)
  else
    d ++ [(k, v)]

namespace CONSTANTS

/-- Embeds `CONSTANTS.START_MESSAGE = b'\xDE'` as its numeric byte value. -/
def START_MESSAGE : Nat := 0xDE

/-- Embeds `CONSTANTS.QUIT_MESSAGE = b'\xFE'`. -/
def QUIT_MESSAGE : Nat := 0xFE

namespace XBOX

namespace JOYSTICK

def MIN_VALUE : Int := 0

/-- Embeds `NEUTRAL_HEX = b'\x64'` as its numeric value (= `NEUTRAL_INT`). -/
def NEUTRAL_HEX : Nat := 0x64

def NEUTRAL_INT : Int := 100

def MAX_VALUE : Int := 200

def AXIS_LX : Nat := 0

def AXIS_LY : Nat := 1

def AXIS_RX : Nat := 5

def AXIS_RY : Nat := 4

end JOYSTICK

namespace TRIGGER

def AXIS_LT : Nat := 2

def AXIS_RT : Nat := 3

end TRIGGER

namespace BUTTONS

def ON : Nat := 2

def OFF : Nat := 1

def A : Nat := 0

def B : Nat := 1

def X : Nat := 2

def Y : Nat := 3

def LEFT_BUMPER : Nat := 4

def RIGHT_BUMPER : Nat := 5

def SELECT : Nat := 6

def START : Nat := 7

def HOME : Nat := 8

end BUTTONS

namespace JOYPAD

def UP : Int × Int := (0, 1)

def DOWN : Int × Int := (0, -1)

end JOYPAD

end XBOX

namespace N64

namespace BUTTONS

def ON : Nat := 2

def OFF : Nat := 1

def A : Nat := 1

def B : Nat := 2

def C_UP : Nat := 9

def C_DOWN : Nat := 0

def C_LEFT : Nat := 3

def C_RIGHT : Nat := 8

def L : Nat := 4

def R : Nat := 5

def Z : Nat := 6

def START : Nat := 12

def DP_UP : Nat := 20

def DP_DOWN : Nat := 21

def DP_LEFT : Nat := 22

def DP_RIGHT : Nat := 23

end BUTTONS

end N64

namespace CONTROLLER_MODES

def NORMAL_MULTIPLIER : Int := 100

def CREEP_MULTIPLIER : Int := 20

end CONTROLLER_MODES

namespace HEARTBEAT

/-- Embeds `HEARTBEAT.MESSAGE = b'\xAA'` as its numeric value. -/
def MESSAGE : Nat := 0xAA

def INTERVAL : Int := 1000000000

end HEARTBEAT

namespace TIMING

/-- Embeds `DEADBAND_THRESHOLD = 0.10`, modelled as the rational 1/10. -/
def DEADBAND_THRESHOLD : ℚ := 1/10

end TIMING

end CONSTANTS

/-! ## MessageFormatter — the legacy 10-byte codec (`communication.py`) -/

namespace MessageFormatter

/-- Embeds `MessageFormatter._pack_xbox_buttons_1`. -/
def pack_xbox_buttons_1 (values : Dict) : Nat :=
  0
  + 1 * dictGet values (CONSTANTS.XBOX.BUTTONS.A + 6) CONSTANTS.XBOX.BUTTONS.OFF
  + 4 * dictGet values (CONSTANTS.XBOX.BUTTONS.B + 6) CONSTANTS.XBOX.BUTTONS.OFF
  + 16 * dictGet values (CONSTANTS.XBOX.BUTTONS.X + 6) CONSTANTS.XBOX.BUTTONS.OFF
  + 64 * dictGet values (CONSTANTS.XBOX.BUTTONS.Y + 6) CONSTANTS.XBOX.BUTTONS.OFF

/-- Embeds `MessageFormatter._pack_xbox_buttons_2`. -/
def pack_xbox_buttons_2 (values : Dict) : Nat :=
  0
  + 1 * dictGet values (CONSTANTS.XBOX.BUTTONS.LEFT_BUMPER + 6) CONSTANTS.XBOX.BUTTONS.OFF
  + 4 * dictGet values (CONSTANTS.XBOX.BUTTONS.RIGHT_BUMPER + 6) CONSTANTS.XBOX.BUTTONS.OFF
  + 16 * dictGet values CONSTANTS.XBOX.TRIGGER.AXIS_LT CONSTANTS.XBOX.BUTTONS.OFF
  + 64 * dictGet values CONSTANTS.XBOX.TRIGGER.AXIS_RT CONSTANTS.XBOX.BUTTONS.OFF

/-- Embeds `MessageFormatter._pack_n64_buttons_1`. -/
def pack_n64_buttons_1 (values : Dict) : Nat :=
  0
  + 1 * dictGet values CONSTANTS.N64.BUTTONS.A CONSTANTS.N64.BUTTONS.OFF
  + 4 * dictGet values CONSTANTS.N64.BUTTONS.B CONSTANTS.N64.BUTTONS.OFF
  + 16 * dictGet values CONSTANTS.N64.BUTTONS.L CONSTANTS.N64.BUTTONS.OFF
  + 64 * dictGet values CONSTANTS.N64.BUTTONS.R CONSTANTS.N64.BUTTONS.OFF

/-- Embeds `MessageFormatter._pack_n64_buttons_2`. -/
def pack_n64_buttons_2 (values : Dict) : Nat :=
  0
  + 1 * dictGet values CONSTANTS.N64.BUTTONS.C_UP CONSTANTS.N64.BUTTONS.OFF
  + 4 * dictGet values CONSTANTS.N64.BUTTONS.C_DOWN CONSTANTS.N64.BUTTONS.OFF
  + 16 * dictGet values CONSTANTS.N64.BUTTONS.C_LEFT CONSTANTS.N64.BUTTONS.OFF
  + 64 * dictGet values CONSTANTS.N64.BUTTONS.C_RIGHT CONSTANTS.N64.BUTTONS.OFF

/-- Embeds `MessageFormatter._pack_n64_buttons_3`. -/
def pack_n64_buttons_3 (values : Dict) : Nat :=
  0
  + 1 * dictGet values CONSTANTS.N64.BUTTONS.DP_UP CONSTANTS.N64.BUTTONS.OFF
  + 4 * dictGet values CONSTANTS.N64.BUTTONS.DP_DOWN CONSTANTS.N64.BUTTONS.OFF
  + 16 * dictGet values CONSTANTS.N64.BUTTONS.DP_LEFT CONSTANTS.N64.BUTTONS.OFF
  + 64 * dictGet values CONSTANTS.N64.BUTTONS.DP_RIGHT CONSTANTS.N64.BUTTONS.OFF

/-- Embeds `MessageFormatter._pack_n64_buttons_4`. -/
def pack_n64_buttons_4 (values : Dict) : Nat :=
  0 + 1 * dictGet values CONSTANTS.N64.BUTTONS.Z CONSTANTS.N64.BUTTONS.OFF

/-- Embeds `MessageFormatter._unpack_xbox_buttons_1`. -/
def unpack_xbox_buttons_1 (byte_val : Nat) : Dict :=
  [ (CONSTANTS.XBOX.BUTTONS.A + 6, byte_val / 1 % 4)
  , (CONSTANTS.XBOX.BUTTONS.B + 6, byte_val / 4 % 4)
  , (CONSTANTS.XBOX.BUTTONS.X + 6, byte_val / 16 % 4)
  , (CONSTANTS.XBOX.BUTTONS.Y + 6, byte_val / 64 % 4) ]

/-- Embeds `MessageFormatter._unpack_xbox_buttons_2`. -/
def unpack_xbox_buttons_2 (byte_val : Nat) : Dict :=
  [ (CONSTANTS.XBOX.BUTTONS.LEFT_BUMPER + 6, byte_val / 1 % 4)
  , (CONSTANTS.XBOX.BUTTONS.RIGHT_BUMPER + 6, byte_val / 4 % 4)
  , (CONSTANTS.XBOX.TRIGGER.AXIS_LT, byte_val / 16 % 4)
  , (CONSTANTS.XBOX.TRIGGER.AXIS_RT, byte_val / 64 % 4) ]

/-- Embeds `MessageFormatter._unpack_n64_buttons_1`. -/
def unpack_n64_buttons_1 (byte_val : Nat) : Dict :=
  [ (CONSTANTS.N64.BUTTONS.A, byte_val / 1 % 4)
  , (CONSTANTS.N64.BUTTONS.B, byte_val / 4 % 4)
  , (CONSTANTS.N64.BUTTONS.L, byte_val / 16 % 4)
  , (CONSTANTS.N64.BUTTONS.R, byte_val / 64 % 4) ]

/-- Embeds `MessageFormatter._unpack_n64_buttons_2`. -/
def unpack_n64_buttons_2 (byte_val : Nat) : Dict :=
  [ (CONSTANTS.N64.BUTTONS.C_UP, byte_val / 1 % 4)
  , (CONSTANTS.N64.BUTTONS.C_DOWN, byte_val / 4 % 4)
  , (CONSTANTS.N64.BUTTONS.C_LEFT, byte_val / 16 % 4)
  , (CONSTANTS.N64.BUTTONS.C_RIGHT, byte_val / 64 % 4) ]

/-- Embeds `MessageFormatter._unpack_n64_buttons_3`. -/
def unpack_n64_buttons_3 (byte_val : Nat) : Dict :=
  [ (CONSTANTS.N64.BUTTONS.DP_UP, byte_val / 1 % 4)
  , (CONSTANTS.N64.BUTTONS.DP_DOWN, byte_val / 4 % 4)
  , (CONSTANTS.N64.BUTTONS.DP_LEFT, byte_val / 16 % 4)
  , (CONSTANTS.N64.BUTTONS.DP_RIGHT, byte_val / 64 % 4) ]

/-- Embeds `MessageFormatter._unpack_n64_buttons_4`. -/
def unpack_n64_buttons_4 (byte_val : Nat) : Dict :=
  [ (CONSTANTS.N64.BUTTONS.Z, byte_val / 1 % 4) ]

/-- Embeds `MessageFormatter.create_xbox_message`.  `values.get(k, b'\x64')` followed
by `int.from_bytes` is `dictGet values k 0x64` in the numeric-value model. -/
def create_xbox_message (values : Dict) (reverse_mode : Bool) : List Nat :=
  let axes :=
    if !reverse_mode then
      [ dictGet values CONSTANTS.XBOX.JOYSTICK.AXIS_LY 0x64
      , dictGet values CONSTANTS.XBOX.JOYSTICK.AXIS_RY 0x64 ]
    else
      [ dictGet values CONSTANTS.XBOX.JOYSTICK.AXIS_RY 0x64
      , dictGet values CONSTANTS.XBOX.JOYSTICK.AXIS_LY 0x64 ]
  CONSTANTS.START_MESSAGE :: axes
    ++ [pack_xbox_buttons_1 values, pack_xbox_buttons_2 values]

/-- Embeds `MessageFormatter.create_n64_message`. -/
def create_n64_message (values : Dict) : List Nat :=
  [ CONSTANTS.START_MESSAGE
  , pack_n64_buttons_1 values
  , pack_n64_buttons_2 values
  , pack_n64_buttons_3 values
  , pack_n64_buttons_4 values ]

/-- Embeds `MessageFormatter.create_combined_message` (the byte list handed to
`bytearray`). -/
def create_combined_message (xbox_values n64_values : Dict)
    (reverse_mode : Bool) : List Nat :=
  create_xbox_message xbox_values reverse_mode ++ create_n64_message n64_values

end MessageFormatter

/-! ## CommunicationManager (`communication.py`)

The transport (`xbee_device.send_data`) is external; a call to it either
completes or raises.  That outcome is an input of the embedded step function
(`send_ok`).  `send_calls` logs every frame actually passed to the send
primitive (whether or not the primitive then raised), so "number of calls to
the transport's send" is observable.  The embedding covers the default
`use_legacy_format = True` configuration, whose frame builder is
`create_combined_message`. -/

structure CommState where
  enabled : Bool
  has_device : Bool
  last_message : List Nat
  send_calls : List (List Nat)
deriving DecidableEq, Repr

namespace CommState

/-- Embeds `CommunicationManager.send_controller_data` (legacy-format path).
Returns the Python return value and the state after the call.
If the transport raises (`send_ok = false`) the exception is caught after
`send_data` was invoked but before `last_message` is reassigned. -/
def send_controller_data (s : CommState) (send_ok : Bool)
    (xbox_values n64_values : Dict) (reverse_mode : Bool) :
    Bool × CommState :=
  if !s.enabled || !s.has_device then
    (false, s)
  else
    let message :=
      MessageFormatter.create_combined_message xbox_values n64_values reverse_mode
    if message = s.last_message then
      (false, s)
    else if send_ok then
      (true, { s with last_message := message,
                      send_calls := s.send_calls ++ [message] })
    else
      (false, { s with send_calls := s.send_calls ++ [message] })

end CommState

/-! ## ControllerState (`controller_manager.py`) -/

/-- Embeds `ControllerState`: `self.values` is a dict from controller-type string to
the per-controller value dict; embedded as an association list on `String`. -/
structure ControllerState where
  values : List (String × Dict)
deriving DecidableEq, Repr

namespace ControllerState

/-- The dict literal built in `ControllerState.__init__` for `"xbox"`. -/
def xboxDefaults : Dict :=
  [ (CONSTANTS.XBOX.JOYSTICK.AXIS_LX, CONSTANTS.XBOX.JOYSTICK.NEUTRAL_HEX)
  , (CONSTANTS.XBOX.JOYSTICK.AXIS_LY, CONSTANTS.XBOX.JOYSTICK.NEUTRAL_HEX)
  , (CONSTANTS.XBOX.JOYSTICK.AXIS_RX, CONSTANTS.XBOX.JOYSTICK.NEUTRAL_HEX)
  , (CONSTANTS.XBOX.JOYSTICK.AXIS_RY, CONSTANTS.XBOX.JOYSTICK.NEUTRAL_HEX)
  , (CONSTANTS.XBOX.TRIGGER.AXIS_LT, CONSTANTS.XBOX.BUTTONS.OFF)
  , (CONSTANTS.XBOX.TRIGGER.AXIS_RT, CONSTANTS.XBOX.BUTTONS.OFF)
  , (CONSTANTS.XBOX.BUTTONS.A + 6, CONSTANTS.XBOX.BUTTONS.OFF)
  , (CONSTANTS.XBOX.BUTTONS.B + 6, CONSTANTS.XBOX.BUTTONS.OFF)
  , (CONSTANTS.XBOX.BUTTONS.X + 6, CONSTANTS.XBOX.BUTTONS.OFF)
  , (CONSTANTS.XBOX.BUTTONS.Y + 6, CONSTANTS.XBOX.BUTTONS.OFF)
  , (CONSTANTS.XBOX.BUTTONS.LEFT_BUMPER + 6, CONSTANTS.XBOX.BUTTONS.OFF)
  , (CONSTANTS.XBOX.BUTTONS.RIGHT_BUMPER + 6, CONSTANTS.XBOX.BUTTONS.OFF)
  , (CONSTANTS.XBOX.BUTTONS.START + 6, CONSTANTS.XBOX.BUTTONS.OFF)
  , (CONSTANTS.XBOX.BUTTONS.SELECT + 6, CONSTANTS.XBOX.BUTTONS.OFF) ]

/-- The dict literal built in `ControllerState.__init__` for `"n64"`. -/
def n64Defaults : Dict :=
  [ (CONSTANTS.N64.BUTTONS.A, CONSTANTS.N64.BUTTONS.OFF)
  , (CONSTANTS.N64.BUTTONS.B, CONSTANTS.N64.BUTTONS.OFF)
  , (CONSTANTS.N64.BUTTONS.C_UP, CONSTANTS.N64.BUTTONS.OFF)
  , (CONSTANTS.N64.BUTTONS.C_DOWN, CONSTANTS.N64.BUTTONS.OFF)
  , (CONSTANTS.N64.BUTTONS.C_LEFT, CONSTANTS.N64.BUTTONS.OFF)
  , (CONSTANTS.N64.BUTTONS.C_RIGHT, CONSTANTS.N64.BUTTONS.OFF)
  , (CONSTANTS.N64.BUTTONS.L, CONSTANTS.N64.BUTTONS.OFF)
  , (CONSTANTS.N64.BUTTONS.R, CONSTANTS.N64.BUTTONS.OFF)
  , (CONSTANTS.N64.BUTTONS.Z, CONSTANTS.N64.BUTTONS.OFF)
  , (CONSTANTS.N64.BUTTONS.DP_UP, CONSTANTS.N64.BUTTONS.OFF)
  , (CONSTANTS.N64.BUTTONS.DP_DOWN, CONSTANTS.N64.BUTTONS.OFF)
  , (CONSTANTS.N64.BUTTONS.DP_LEFT, CONSTANTS.N64.BUTTONS.OFF)
  , (CONSTANTS.N64.BUTTONS.DP_RIGHT, CONSTANTS.N64.BUTTONS.OFF) ]

/-- Embeds `ControllerState.__init__`. -/
def init : ControllerState :=
  { values := [("xbox", xboxDefaults), ("n64", n64Defaults)] }

/-- Embeds `ControllerState.get_controller_values`: `self.values.get(t, {})`. -/
def get_controller_values (s : ControllerState) (controller_type : String) :
    Dict :=
  (s.values.lookup controller_type).getD []

/-- Embeds `ControllerState.update_value`: writes only when
`controller_type in self.values`; otherwise nothing happens. -/
def update_value (s : ControllerState) (controller_type : String)
    (key value : Nat) : ControllerState :=
  if (s.values.lookup controller_type).isSome then
    { values := s.values.map
        (fun p => if p.1 = controller_type then (p.1, dictInsert p.2 key value) else p) }
  else
    s

end ControllerState

/-! ## ControllerManager mode flags (`controller_manager.py`) -/

/-- The manager fields `update_mode_flags` touches: the shared
`controller_state` and the two mode booleans. -/
structure ManagerState where
  controller_state : ControllerState
  creep_mode : Bool
  reverse_mode : Bool
deriving DecidableEq, Repr

namespace ManagerState

/-- Embeds `ControllerManager.update_mode_flags`.  `dict.get(k)` with no default is
`List.lookup`; `== CONSTANTS.XBOX.BUTTONS.ON` compares against `some ON`. -/
def update_mode_flags (m : ManagerState) (joypad_direction : Int × Int)
    (controller_type : String) : ManagerState :=
  if controller_type ≠ "xbox" then m
  else
    let xbox := (m.controller_state.values.lookup "xbox").getD []
    let select_pressed :=
      xbox.lookup (CONSTANTS.XBOX.BUTTONS.SELECT + 6) = some CONSTANTS.XBOX.BUTTONS.ON
    let start_pressed :=
      xbox.lookup (CONSTANTS.XBOX.BUTTONS.START + 6) = some CONSTANTS.XBOX.BUTTONS.ON
    if joypad_direction = CONSTANTS.XBOX.JOYPAD.DOWN then
      { m with
        reverse_mode := if select_pressed then false else m.reverse_mode,
        creep_mode := if start_pressed then false else m.creep_mode }
    else if joypad_direction = CONSTANTS.XBOX.JOYPAD.UP then
      { m with
        reverse_mode := if select_pressed then true else m.reverse_mode,
        creep_mode := if start_pressed then true else m.creep_mode }
    else m

end ManagerState

/-! ## InputProcessor axis pipeline (`controller_manager.py`)

Python `float` arithmetic on axis values is modelled over `ℚ`; the constants
involved (`0.10`, `100`, `20`, `200`) and the scenario inputs are exactly
representable, and the pipeline applies deadband, one multiply-add, `floor`,
and integer clamping. -/

namespace InputProcessor

/-- Embeds `InputProcessor._calculate_axis_multiplier` for the `"xbox"` profile. -/
def calculate_axis_multiplier (creep_mode reverse_mode : Bool) : Int :=
  let multiplier := CONSTANTS.CONTROLLER_MODES.NORMAL_MULTIPLIER
  let multiplier :=
    if creep_mode then CONSTANTS.CONTROLLER_MODES.CREEP_MULTIPLIER else multiplier
  if reverse_mode then -multiplier else multiplier

/-- Embeds `InputProcessor._convert_axis_value` (with the `XBOX` constants):
`floor(multiplier * value + NEUTRAL_INT)` clamped to `[MIN_VALUE, MAX_VALUE]`. -/
def convert_axis_value (value : ℚ) (multiplier : Int) : Int :=
  let new_value := Int.floor ((multiplier : ℚ) * value + (CONSTANTS.XBOX.JOYSTICK.NEUTRAL_INT : ℚ))
  if new_value < CONSTANTS.XBOX.JOYSTICK.MIN_VALUE then
    CONSTANTS.XBOX.JOYSTICK.MIN_VALUE
  else if new_value > CONSTANTS.XBOX.JOYSTICK.MAX_VALUE then
    CONSTANTS.XBOX.JOYSTICK.MAX_VALUE
  else new_value

/-- The numeric value of the byte computed by
`InputProcessor.process_joystick_axis` for an `"xbox"` axis event with raw
value `event_value`: deadband first, then `_convert_axis_value`. -/
def process_joystick_axis_value (event_value : ℚ)
    (creep_mode reverse_mode : Bool) : Int :=
  let multiplier := calculate_axis_multiplier creep_mode reverse_mode
  let value :=
    if |event_value| ≥ CONSTANTS.TIMING.DEADBAND_THRESHOLD then event_value else 0
  convert_axis_value value multiplier

/-- Embeds `InputProcessor.process_joystick_axis` for an `"xbox"` event: the computed
value is stored (as a single byte, here its numeric value) at key
`event.axis` in the xbox sub-map. -/
def process_joystick_axis (state : ControllerState) (event_axis : Nat)
    (event_value : ℚ) (creep_mode reverse_mode : Bool) : ControllerState :=
  state.update_value "xbox" event_axis
    (process_joystick_axis_value event_value creep_mode reverse_mode).toNat

end InputProcessor

/-! ## HeartbeatManager (`heartbeat.py`)

`time.time_ns()` readings are inputs of the step functions (`now`), the
current unix-seconds timestamp is `unix_ts`, and the outcome of the external
`xbee_device.send_data` call is the input `send_ok` (false = it raised). -/

structure HeartbeatState where
  enabled : Bool
  has_device : Bool
  last_heartbeat_time : Int
  heartbeat_interval : Int
deriving DecidableEq, Repr

namespace HeartbeatState

/-- Embeds `HeartbeatManager.__init__` timing fields (`last_heartbeat_time = 0`,
interval from the constants table). -/
def init (enabled has_device : Bool) : HeartbeatState :=
  { enabled := enabled, has_device := has_device,
    last_heartbeat_time := 0,
    heartbeat_interval := CONSTANTS.HEARTBEAT.INTERVAL }

/-- Embeds `HeartbeatManager.should_send_heartbeat` at clock reading `now`. -/
def should_send_heartbeat (s : HeartbeatState) (now : Int) : Bool :=
  now - s.last_heartbeat_time ≥ s.heartbeat_interval

/-- Embeds `HeartbeatManager.create_heartbeat_message`:
`b'\xAA'` + last two bytes of `struct.pack('>I', unix_ts)`. -/
def create_heartbeat_message (unix_ts : Nat) : List Nat :=
  [CONSTANTS.HEARTBEAT.MESSAGE, unix_ts / 256 % 256, unix_ts % 256]

/-- Embeds `HeartbeatManager.send_heartbeat`: returns the Python return value and the
state after the call.  `last_heartbeat_time` is assigned on the line after
`send_data`, so a raising `send_data` (caught by the `except`) leaves it
untouched. -/
def send_heartbeat (s : HeartbeatState) (now : Int) (send_ok : Bool) :
    Bool × HeartbeatState :=
  if !s.enabled || !s.has_device then
    (false, s)
  else if send_ok then
    (true, { s with last_heartbeat_time := now })
  else
    (false, s)

/-- Embeds `HeartbeatManager.update`. -/
def update (s : HeartbeatState) (now : Int) (send_ok : Bool) :
    Bool × HeartbeatState :=
  if s.should_send_heartbeat now then s.send_heartbeat now send_ok
  else (false, s)

end HeartbeatState

/-! ## Extensible message codec (`message_system.py`)

Byte strings are `List Nat` (each entry one byte).  The header is
`struct.pack('>BIQH', type, id, timestamp_bits, payload_length)`; the
timestamp travels as the raw 64-bit pattern of the Python float (packed with
`'>d'`, unpacked with `'>Q'` and back), so the embedding carries it as the
`Nat` bit pattern `timestamp_bits`, which the framing preserves verbatim.
ASCII payload text is mapped to bytes by code point (UTF-8 restricted to the
ASCII strings the JSON layer produces here). -/

/-- Big-endian byte encoding with a fixed width, as `struct.pack` uses for
the `B`/`I`/`Q`/`H` fields. -/
def natToBE : Nat → Nat → List Nat
  | 0, _ => []
  | w + 1, n => natToBE w (n / 256) ++ [n % 256]

/-- Big-endian byte decoding, as `struct.unpack` uses. -/
def beToNat (bs : List Nat) : Nat :=
  bs.foldl (fun acc b => acc * 256 + b) 0

/-- UTF-8 bytes of an ASCII string (code-point map). -/
def strBytes (s : String) : List Nat :=
  s.data.map Char.toNat

/-- Inverse of `strBytes` on ASCII byte lists. -/
def bytesToStr (bs : List Nat) : String :=
  String.mk (bs.map Char.ofNat)

namespace MessageHeader

/-- Embeds `MessageHeader.to_bytes`: `struct.pack('>BIQH', ...)`. -/
def to_bytes (message_type message_id timestamp_bits payload_length : Nat) :
    List Nat :=
  [message_type] ++ natToBE 4 message_id ++ natToBE 8 timestamp_bits
    ++ natToBE 2 payload_length

/-- Embeds `MessageHeader.from_bytes`: `struct.unpack('>BIQH', data[:15])`, returning
`(message_type, message_id, timestamp_bits, payload_length)`. -/
def from_bytes (data : List Nat) : Nat × Nat × Nat × Nat :=
  ( data.headD 0
  , beToNat ((data.drop 1).take 4)
  , beToNat ((data.drop 5).take 8)
  , beToNat ((data.drop 13).take 2) )

end MessageHeader

namespace MessageType

def HEARTBEAT : Nat := 0x01

def CONTROLLER_DATA : Nat := 0x02

def TELEMETRY : Nat := 0x03

def COMMAND : Nat := 0x06

def ERROR : Nat := 0x08

def GPS_DATA : Nat := 0x12

end MessageType

/-- The decoded `HeartbeatMessage` object: its header-seeded fields and the
`status` set by `decode_payload`. -/
structure HeartbeatMsg where
  message_id : Nat
  timestamp_bits : Nat
  status : String
deriving DecidableEq, Repr

/-- The `message_type` property of `HeartbeatMessage`. -/
def HeartbeatMsg.message_type (_ : HeartbeatMsg) : Nat :=
  MessageType.HEARTBEAT

/-- Embeds `HeartbeatMessage.encode_payload`:
`json.dumps({"status": self.status}).encode('utf-8')`, which renders as
`{"status": "<status>"}` (statuses used contain no characters JSON escapes). -/
def heartbeatEncodePayload (status : String) : List Nat :=
  strBytes ("\x7b\"status\": \"" ++ status ++ "\"\x7d")

/-- Model of `json.loads` followed by `data.get("status", "alive")` on the
payload shape `HeartbeatMessage.encode_payload` produces: strips the fixed
object frame around an escape-free string value; any other input is a JSON
error (`none`). -/
def parseStatusPayload (bs : List Nat) : Option String :=
  let pre := strBytes "\x7b\"status\": \""
  let suf := strBytes "\"\x7d"
  if pre.length + suf.length ≤ bs.length
      ∧ bs.take pre.length = pre
      ∧ bs.drop (bs.length - suf.length) = suf then
    let mid := (bs.drop pre.length).take (bs.length - pre.length - suf.length)
    if mid.all (fun b => b ≠ 34 ∧ b ≠ 92 ∧ b < 128) then
      some (bytesToStr mid)
    else none
  else none

/-- Embeds `BaseMessage.encode` for a `HeartbeatMessage`: 15-byte header
(type tag `0x01`) followed by the JSON payload. -/
def heartbeatEncode (message_id timestamp_bits : Nat) (status : String) :
    List Nat :=
  MessageHeader.to_bytes MessageType.HEARTBEAT message_id timestamp_bits
    (heartbeatEncodePayload status).length ++ heartbeatEncodePayload status

/-- Embeds `HeartbeatMessage.decode` (i.e. `BaseMessage.decode` with
`decode_payload` of the heartbeat class): length check, header parse, payload
slice `data[15:15+payload_length]`, then the JSON parse.  Exceptions
(`ValueError`, JSON errors) are `Except.error`. -/
def heartbeatDecode (data : List Nat) : Except String HeartbeatMsg :=
  if data.length < 15 then
    Except.error "Message too short"
  else
    let h := MessageHeader.from_bytes (data.take 15)
    let payload := (data.drop 15).take h.2.2.2
    match parseStatusPayload payload with
    | some st => Except.ok ⟨h.2.1, h.2.2.1, st⟩
    | none => Except.error "JSON decode error"

/-- A message decoded by the codec.  Only the heartbeat class's
`decode` is exercised by the spec's claims; the remaining registered classes
are represented by their type tag. -/
inductive DecodedMessage where
  | heartbeat : HeartbeatMsg → DecodedMessage
  | other : Nat → DecodedMessage
deriving DecidableEq, Repr

/-- Embeds `MessageCodec.__init__`: the type tags registered by default
(heartbeat, controller data, telemetry, command, error). -/
def MessageCodec.initTags : List Nat :=
  [ MessageType.HEARTBEAT, MessageType.CONTROLLER_DATA, MessageType.TELEMETRY
  , MessageType.COMMAND, MessageType.ERROR ]

/-- Embeds `MessageCodec.decode_message` over a registry holding the given type
tags: length check, header parse, registry lookup (unknown tag is a raised
`ValueError`), then dispatch to the registered class's `decode`. -/
def MessageCodec.decode_message (tags : List Nat) (data : List Nat) :
    Except String DecodedMessage :=
  if data.length < 15 then
    Except.error "Message too short"
  else if (MessageHeader.from_bytes (data.take 15)).1 ∉ tags then
    Except.error ("Unknown msg type: "
      ++ toString (MessageHeader.from_bytes (data.take 15)).1)
  else if (MessageHeader.from_bytes (data.take 15)).1 = MessageType.HEARTBEAT then
    (heartbeatDecode data).map DecodedMessage.heartbeat
  else
    Except.ok (DecodedMessage.other (MessageHeader.from_bytes (data.take 15)).1)

/-! ## Helper lemmas -/

/-- The entry at `k`, if present, lies in 0..3 (one 2-bit field value of
claim C3), as a decidable per-key check.  Entries at other keys of the
mapping (for instance the axis bytes) are not constrained by this. -/
def entryLT4 (d : Dict) (k : Nat) : Bool :=
  match d.lookup k with
  | none => true
  | some v => v < 4

/-- Every 2-bit field value the Xbox button bytes pack (the eight field
keys of `_pack_xbox_buttons_1/2`) lies in 0..3. -/
def xboxFieldsLT4 (d : Dict) : Bool :=
  entryLT4 d (CONSTANTS.XBOX.BUTTONS.A + 6)
  && entryLT4 d (CONSTANTS.XBOX.BUTTONS.B + 6)
  && entryLT4 d (CONSTANTS.XBOX.BUTTONS.X + 6)
  && entryLT4 d (CONSTANTS.XBOX.BUTTONS.Y + 6)
  && entryLT4 d (CONSTANTS.XBOX.BUTTONS.LEFT_BUMPER + 6)
  && entryLT4 d (CONSTANTS.XBOX.BUTTONS.RIGHT_BUMPER + 6)
  && entryLT4 d CONSTANTS.XBOX.TRIGGER.AXIS_LT
  && entryLT4 d CONSTANTS.XBOX.TRIGGER.AXIS_RT

/-- Every 2-bit field value the N64 button bytes pack (the thirteen field
keys of `_pack_n64_buttons_1/2/3/4`) lies in 0..3. -/
def n64FieldsLT4 (d : Dict) : Bool :=
  entryLT4 d CONSTANTS.N64.BUTTONS.A
  && entryLT4 d CONSTANTS.N64.BUTTONS.B
  && entryLT4 d CONSTANTS.N64.BUTTONS.L
  && entryLT4 d CONSTANTS.N64.BUTTONS.R
  && entryLT4 d CONSTANTS.N64.BUTTONS.C_UP
  && entryLT4 d CONSTANTS.N64.BUTTONS.C_DOWN
  && entryLT4 d CONSTANTS.N64.BUTTONS.C_LEFT
  && entryLT4 d CONSTANTS.N64.BUTTONS.C_RIGHT
  && entryLT4 d CONSTANTS.N64.BUTTONS.DP_UP
  && entryLT4 d CONSTANTS.N64.BUTTONS.DP_DOWN
  && entryLT4 d CONSTANTS.N64.BUTTONS.DP_LEFT
  && entryLT4 d CONSTANTS.N64.BUTTONS.DP_RIGHT
  && entryLT4 d CONSTANTS.N64.BUTTONS.Z

theorem entryLT4_dictGet {d : Dict} {k : Nat} (h : entryLT4 d k = true)
    (dflt : Nat) (hd : dflt < 4) : dictGet d k dflt < 4 := by
  unfold entryLT4 at h
  unfold dictGet
  cases hl : d.lookup k with
  | none => simpa using hd
  | some v =>
    rw [hl] at h
    simpa using h

theorem lookup_unpack_xbox_1 (n : Nat) :
    (MessageFormatter.unpack_xbox_buttons_1 n).lookup (CONSTANTS.XBOX.BUTTONS.A + 6) = some (n / 1 % 4)
    ∧ (MessageFormatter.unpack_xbox_buttons_1 n).lookup (CONSTANTS.XBOX.BUTTONS.B + 6) = some (n / 4 % 4)
    ∧ (MessageFormatter.unpack_xbox_buttons_1 n).lookup (CONSTANTS.XBOX.BUTTONS.X + 6) = some (n / 16 % 4)
    ∧ (MessageFormatter.unpack_xbox_buttons_1 n).lookup (CONSTANTS.XBOX.BUTTONS.Y + 6) = some (n / 64 % 4) :=
  ⟨rfl, rfl, rfl, rfl⟩

theorem lookup_unpack_xbox_2 (n : Nat) :
    (MessageFormatter.unpack_xbox_buttons_2 n).lookup (CONSTANTS.XBOX.BUTTONS.LEFT_BUMPER + 6) = some (n / 1 % 4)
    ∧ (MessageFormatter.unpack_xbox_buttons_2 n).lookup (CONSTANTS.XBOX.BUTTONS.RIGHT_BUMPER + 6) = some (n / 4 % 4)
    ∧ (MessageFormatter.unpack_xbox_buttons_2 n).lookup CONSTANTS.XBOX.TRIGGER.AXIS_LT = some (n / 16 % 4)
    ∧ (MessageFormatter.unpack_xbox_buttons_2 n).lookup CONSTANTS.XBOX.TRIGGER.AXIS_RT = some (n / 64 % 4) :=
  ⟨rfl, rfl, rfl, rfl⟩

theorem lookup_unpack_n64_1 (n : Nat) :
    (MessageFormatter.unpack_n64_buttons_1 n).lookup CONSTANTS.N64.BUTTONS.A = some (n / 1 % 4)
    ∧ (MessageFormatter.unpack_n64_buttons_1 n).lookup CONSTANTS.N64.BUTTONS.B = some (n / 4 % 4)
    ∧ (MessageFormatter.unpack_n64_buttons_1 n).lookup CONSTANTS.N64.BUTTONS.L = some (n / 16 % 4)
    ∧ (MessageFormatter.unpack_n64_buttons_1 n).lookup CONSTANTS.N64.BUTTONS.R = some (n / 64 % 4) :=
  ⟨rfl, rfl, rfl, rfl⟩

theorem lookup_unpack_n64_2 (n : Nat) :
    (MessageFormatter.unpack_n64_buttons_2 n).lookup CONSTANTS.N64.BUTTONS.C_UP = some (n / 1 % 4)
    ∧ (MessageFormatter.unpack_n64_buttons_2 n).lookup CONSTANTS.N64.BUTTONS.C_DOWN = some (n / 4 % 4)
    ∧ (MessageFormatter.unpack_n64_buttons_2 n).lookup CONSTANTS.N64.BUTTONS.C_LEFT = some (n / 16 % 4)
    ∧ (MessageFormatter.unpack_n64_buttons_2 n).lookup CONSTANTS.N64.BUTTONS.C_RIGHT = some (n / 64 % 4) :=
  ⟨rfl, rfl, rfl, rfl⟩

theorem lookup_unpack_n64_3 (n : Nat) :
    (MessageFormatter.unpack_n64_buttons_3 n).lookup CONSTANTS.N64.BUTTONS.DP_UP = some (n / 1 % 4)
    ∧ (MessageFormatter.unpack_n64_buttons_3 n).lookup CONSTANTS.N64.BUTTONS.DP_DOWN = some (n / 4 % 4)
    ∧ (MessageFormatter.unpack_n64_buttons_3 n).lookup CONSTANTS.N64.BUTTONS.DP_LEFT = some (n / 16 % 4)
    ∧ (MessageFormatter.unpack_n64_buttons_3 n).lookup CONSTANTS.N64.BUTTONS.DP_RIGHT = some (n / 64 % 4) :=
  ⟨rfl, rfl, rfl, rfl⟩

theorem lookup_unpack_n64_4 (n : Nat) :
    (MessageFormatter.unpack_n64_buttons_4 n).lookup CONSTANTS.N64.BUTTONS.Z = some (n / 1 % 4) :=
  rfl

/-- C3: for every button-byte of the legacy codec (Xbox bytes 1-2 and N64
bytes 1-4), if every 2-bit field value stored in the state mapping (the
entries at the packed field keys; other entries such as the axis bytes are
unconstrained) lies in 0..3, then unpacking the packed byte returns exactly
the original field values (with the OFF default substituted for absent
keys): `(sum_j 4^j * v_j) / 4^i % 4 = v_i` for each field. -/
theorem C3_button_byte_roundtrip (xv nv : Dict)
    (hx : xboxFieldsLT4 xv = true) (hn : n64FieldsLT4 nv = true) :
    (MessageFormatter.unpack_xbox_buttons_1 (MessageFormatter.pack_xbox_buttons_1 xv)).lookup (CONSTANTS.XBOX.BUTTONS.A + 6)
      = some (dictGet xv (CONSTANTS.XBOX.BUTTONS.A + 6) CONSTANTS.XBOX.BUTTONS.OFF)
    ∧ (MessageFormatter.unpack_xbox_buttons_1 (MessageFormatter.pack_xbox_buttons_1 xv)).lookup (CONSTANTS.XBOX.BUTTONS.B + 6)
      = some (dictGet xv (CONSTANTS.XBOX.BUTTONS.B + 6) CONSTANTS.XBOX.BUTTONS.OFF)
    ∧ (MessageFormatter.unpack_xbox_buttons_1 (MessageFormatter.pack_xbox_buttons_1 xv)).lookup (CONSTANTS.XBOX.BUTTONS.X + 6)
      = some (dictGet xv (CONSTANTS.XBOX.BUTTONS.X + 6) CONSTANTS.XBOX.BUTTONS.OFF)
    ∧ (MessageFormatter.unpack_xbox_buttons_1 (MessageFormatter.pack_xbox_buttons_1 xv)).lookup (CONSTANTS.XBOX.BUTTONS.Y + 6)
      = some (dictGet xv (CONSTANTS.XBOX.BUTTONS.Y + 6) CONSTANTS.XBOX.BUTTONS.OFF)
    ∧ (MessageFormatter.unpack_xbox_buttons_2 (MessageFormatter.pack_xbox_buttons_2 xv)).lookup (CONSTANTS.XBOX.BUTTONS.LEFT_BUMPER + 6)
      = some (dictGet xv (CONSTANTS.XBOX.BUTTONS.LEFT_BUMPER + 6) CONSTANTS.XBOX.BUTTONS.OFF)
    ∧ (MessageFormatter.unpack_xbox_buttons_2 (MessageFormatter.pack_xbox_buttons_2 xv)).lookup (CONSTANTS.XBOX.BUTTONS.RIGHT_BUMPER + 6)
      = some (dictGet xv (CONSTANTS.XBOX.BUTTONS.RIGHT_BUMPER + 6) CONSTANTS.XBOX.BUTTONS.OFF)
    ∧ (MessageFormatter.unpack_xbox_buttons_2 (MessageFormatter.pack_xbox_buttons_2 xv)).lookup (CONSTANTS.XBOX.TRIGGER.AXIS_LT)
      = some (dictGet xv (CONSTANTS.XBOX.TRIGGER.AXIS_LT) CONSTANTS.XBOX.BUTTONS.OFF)
    ∧ (MessageFormatter.unpack_xbox_buttons_2 (MessageFormatter.pack_xbox_buttons_2 xv)).lookup (CONSTANTS.XBOX.TRIGGER.AXIS_RT)
      = some (dictGet xv (CONSTANTS.XBOX.TRIGGER.AXIS_RT) CONSTANTS.XBOX.BUTTONS.OFF)
    ∧ (MessageFormatter.unpack_n64_buttons_1 (MessageFormatter.pack_n64_buttons_1 nv)).lookup (CONSTANTS.N64.BUTTONS.A)
      = some (dictGet nv (CONSTANTS.N64.BUTTONS.A) CONSTANTS.N64.BUTTONS.OFF)
    ∧ (MessageFormatter.unpack_n64_buttons_1 (MessageFormatter.pack_n64_buttons_1 nv)).lookup (CONSTANTS.N64.BUTTONS.B)
      = some (dictGet nv (CONSTANTS.N64.BUTTONS.B) CONSTANTS.N64.BUTTONS.OFF)
    ∧ (MessageFormatter.unpack_n64_buttons_1 (MessageFormatter.pack_n64_buttons_1 nv)).lookup (CONSTANTS.N64.BUTTONS.L)
      = some (dictGet nv (CONSTANTS.N64.BUTTONS.L) CONSTANTS.N64.BUTTONS.OFF)
    ∧ (MessageFormatter.unpack_n64_buttons_1 (MessageFormatter.pack_n64_buttons_1 nv)).lookup (CONSTANTS.N64.BUTTONS.R)
      = some (dictGet nv (CONSTANTS.N64.BUTTONS.R) CONSTANTS.N64.BUTTONS.OFF)
    ∧ (MessageFormatter.unpack_n64_buttons_2 (MessageFormatter.pack_n64_buttons_2 nv)).lookup (CONSTANTS.N64.BUTTONS.C_UP)
      = some (dictGet nv (CONSTANTS.N64.BUTTONS.C_UP) CONSTANTS.N64.BUTTONS.OFF)
    ∧ (MessageFormatter.unpack_n64_buttons_2 (MessageFormatter.pack_n64_buttons_2 nv)).lookup (CONSTANTS.N64.BUTTONS.C_DOWN)
      = some (dictGet nv (CONSTANTS.N64.BUTTONS.C_DOWN) CONSTANTS.N64.BUTTONS.OFF)
    ∧ (MessageFormatter.unpack_n64_buttons_2 (MessageFormatter.pack_n64_buttons_2 nv)).lookup (CONSTANTS.N64.BUTTONS.C_LEFT)
      = some (dictGet nv (CONSTANTS.N64.BUTTONS.C_LEFT) CONSTANTS.N64.BUTTONS.OFF)
    ∧ (MessageFormatter.unpack_n64_buttons_2 (MessageFormatter.pack_n64_buttons_2 nv)).lookup (CONSTANTS.N64.BUTTONS.C_RIGHT)
      = some (dictGet nv (CONSTANTS.N64.BUTTONS.C_RIGHT) CONSTANTS.N64.BUTTONS.OFF)
    ∧ (MessageFormatter.unpack_n64_buttons_3 (MessageFormatter.pack_n64_buttons_3 nv)).lookup (CONSTANTS.N64.BUTTONS.DP_UP)
      = some (dictGet nv (CONSTANTS.N64.BUTTONS.DP_UP) CONSTANTS.N64.BUTTONS.OFF)
    ∧ (MessageFormatter.unpack_n64_buttons_3 (MessageFormatter.pack_n64_buttons_3 nv)).lookup (CONSTANTS.N64.BUTTONS.DP_DOWN)
      = some (dictGet nv (CONSTANTS.N64.BUTTONS.DP_DOWN) CONSTANTS.N64.BUTTONS.OFF)
    ∧ (MessageFormatter.unpack_n64_buttons_3 (MessageFormatter.pack_n64_buttons_3 nv)).lookup (CONSTANTS.N64.BUTTONS.DP_LEFT)
      = some (dictGet nv (CONSTANTS.N64.BUTTONS.DP_LEFT) CONSTANTS.N64.BUTTONS.OFF)
    ∧ (MessageFormatter.unpack_n64_buttons_3 (MessageFormatter.pack_n64_buttons_3 nv)).lookup (CONSTANTS.N64.BUTTONS.DP_RIGHT)
      = some (dictGet nv (CONSTANTS.N64.BUTTONS.DP_RIGHT) CONSTANTS.N64.BUTTONS.OFF)
    ∧ (MessageFormatter.unpack_n64_buttons_4 (MessageFormatter.pack_n64_buttons_4 nv)).lookup (CONSTANTS.N64.BUTTONS.Z)
      = some (dictGet nv (CONSTANTS.N64.BUTTONS.Z) CONSTANTS.N64.BUTTONS.OFF) := by
  simp only [xboxFieldsLT4, Bool.and_eq_true] at hx
  simp only [n64FieldsLT4, Bool.and_eq_true] at hn
  obtain ⟨⟨⟨⟨⟨⟨⟨ea6, eb6⟩, ex6⟩, ey6⟩, elb⟩, erb⟩, elt⟩, ert⟩ := hx
  obtain ⟨⟨⟨⟨⟨⟨⟨⟨⟨⟨⟨⟨fa, fb⟩, fl⟩, fr⟩, fcu⟩, fcd⟩, fcl⟩, fcr⟩, fdu⟩, fdd⟩, fdl⟩, fdr⟩, fz⟩ := hn
  have hx2 := entryLT4_dictGet elt 1 (by norm_num)
  have hx3 := entryLT4_dictGet ert 1 (by norm_num)
  have hx6 := entryLT4_dictGet ea6 1 (by norm_num)
  have hx7 := entryLT4_dictGet eb6 1 (by norm_num)
  have hx8 := entryLT4_dictGet ex6 1 (by norm_num)
  have hx9 := entryLT4_dictGet ey6 1 (by norm_num)
  have hx10 := entryLT4_dictGet elb 1 (by norm_num)
  have hx11 := entryLT4_dictGet erb 1 (by norm_num)
  have hn0 := entryLT4_dictGet fcd 1 (by norm_num)
  have hn1 := entryLT4_dictGet fa 1 (by norm_num)
  have hn2 := entryLT4_dictGet fb 1 (by norm_num)
  have hn3 := entryLT4_dictGet fcl 1 (by norm_num)
  have hn4 := entryLT4_dictGet fl 1 (by norm_num)
  have hn5 := entryLT4_dictGet fr 1 (by norm_num)
  have hn6 := entryLT4_dictGet fz 1 (by norm_num)
  have hn8 := entryLT4_dictGet fcr 1 (by norm_num)
  have hn9 := entryLT4_dictGet fcu 1 (by norm_num)
  have hn20 := entryLT4_dictGet fdu 1 (by norm_num)
  have hn21 := entryLT4_dictGet fdd 1 (by norm_num)
  have hn22 := entryLT4_dictGet fdl 1 (by norm_num)
  have hn23 := entryLT4_dictGet fdr 1 (by norm_num)
  norm_num [CONSTANTS.XBOX.BUTTONS.A, CONSTANTS.XBOX.BUTTONS.B,
    CONSTANTS.XBOX.BUTTONS.X, CONSTANTS.XBOX.BUTTONS.Y,
    CONSTANTS.XBOX.BUTTONS.LEFT_BUMPER, CONSTANTS.XBOX.BUTTONS.RIGHT_BUMPER,
    CONSTANTS.XBOX.TRIGGER.AXIS_LT, CONSTANTS.XBOX.TRIGGER.AXIS_RT,
    CONSTANTS.N64.BUTTONS.A, CONSTANTS.N64.BUTTONS.B, CONSTANTS.N64.BUTTONS.L,
    CONSTANTS.N64.BUTTONS.R, CONSTANTS.N64.BUTTONS.C_UP,
    CONSTANTS.N64.BUTTONS.C_DOWN, CONSTANTS.N64.BUTTONS.C_LEFT,
    CONSTANTS.N64.BUTTONS.C_RIGHT, CONSTANTS.N64.BUTTONS.DP_UP,
    CONSTANTS.N64.BUTTONS.DP_DOWN, CONSTANTS.N64.BUTTONS.DP_LEFT,
    CONSTANTS.N64.BUTTONS.DP_RIGHT, CONSTANTS.N64.BUTTONS.Z] at hx2 hx3 hx6 hx7 hx8 hx9 hx10 hx11 hn0 hn1 hn2 hn3 hn4 hn5 hn6 hn8 hn9 hn20 hn21 hn22 hn23
  refine ⟨?_, ?_, ?_, ?_, ?_, ?_, ?_, ?_, ?_, ?_, ?_, ?_, ?_, ?_, ?_, ?_, ?_, ?_, ?_, ?_, ?_⟩
  · rw [show (MessageFormatter.unpack_xbox_buttons_1 (MessageFormatter.pack_xbox_buttons_1 xv)).lookup (CONSTANTS.XBOX.BUTTONS.A + 6)
        = some (MessageFormatter.pack_xbox_buttons_1 xv / 1 % 4) from (lookup_unpack_xbox_1 (MessageFormatter.pack_xbox_buttons_1 xv)).1]
    simp only [MessageFormatter.pack_xbox_buttons_1, CONSTANTS.XBOX.BUTTONS.A, CONSTANTS.XBOX.BUTTONS.B, CONSTANTS.XBOX.BUTTONS.X, CONSTANTS.XBOX.BUTTONS.Y, CONSTANTS.XBOX.BUTTONS.LEFT_BUMPER, CONSTANTS.XBOX.BUTTONS.RIGHT_BUMPER, CONSTANTS.XBOX.TRIGGER.AXIS_LT, CONSTANTS.XBOX.TRIGGER.AXIS_RT, CONSTANTS.XBOX.BUTTONS.OFF, Option.some.injEq]
    norm_num
    omega
  · rw [show (MessageFormatter.unpack_xbox_buttons_1 (MessageFormatter.pack_xbox_buttons_1 xv)).lookup (CONSTANTS.XBOX.BUTTONS.B + 6)
        = some (MessageFormatter.pack_xbox_buttons_1 xv / 4 % 4) from (lookup_unpack_xbox_1 (MessageFormatter.pack_xbox_buttons_1 xv)).2.1]
    simp only [MessageFormatter.pack_xbox_buttons_1, CONSTANTS.XBOX.BUTTONS.A, CONSTANTS.XBOX.BUTTONS.B, CONSTANTS.XBOX.BUTTONS.X, CONSTANTS.XBOX.BUTTONS.Y, CONSTANTS.XBOX.BUTTONS.LEFT_BUMPER, CONSTANTS.XBOX.BUTTONS.RIGHT_BUMPER, CONSTANTS.XBOX.TRIGGER.AXIS_LT, CONSTANTS.XBOX.TRIGGER.AXIS_RT, CONSTANTS.XBOX.BUTTONS.OFF, Option.some.injEq]
    norm_num
    omega
  · rw [show (MessageFormatter.unpack_xbox_buttons_1 (MessageFormatter.pack_xbox_buttons_1 xv)).lookup (CONSTANTS.XBOX.BUTTONS.X + 6)
        = some (MessageFormatter.pack_xbox_buttons_1 xv / 16 % 4) from (lookup_unpack_xbox_1 (MessageFormatter.pack_xbox_buttons_1 xv)).2.2.1]
    simp only [MessageFormatter.pack_xbox_buttons_1, CONSTANTS.XBOX.BUTTONS.A, CONSTANTS.XBOX.BUTTONS.B, CONSTANTS.XBOX.BUTTONS.X, CONSTANTS.XBOX.BUTTONS.Y, CONSTANTS.XBOX.BUTTONS.LEFT_BUMPER, CONSTANTS.XBOX.BUTTONS.RIGHT_BUMPER, CONSTANTS.XBOX.TRIGGER.AXIS_LT, CONSTANTS.XBOX.TRIGGER.AXIS_RT, CONSTANTS.XBOX.BUTTONS.OFF, Option.some.injEq]
    norm_num
    omega
  · rw [show (MessageFormatter.unpack_xbox_buttons_1 (MessageFormatter.pack_xbox_buttons_1 xv)).lookup (CONSTANTS.XBOX.BUTTONS.Y + 6)
        = some (MessageFormatter.pack_xbox_buttons_1 xv / 64 % 4) from (lookup_unpack_xbox_1 (MessageFormatter.pack_xbox_buttons_1 xv)).2.2.2]
    simp only [MessageFormatter.pack_xbox_buttons_1, CONSTANTS.XBOX.BUTTONS.A, CONSTANTS.XBOX.BUTTONS.B, CONSTANTS.XBOX.BUTTONS.X, CONSTANTS.XBOX.BUTTONS.Y, CONSTANTS.XBOX.BUTTONS.LEFT_BUMPER, CONSTANTS.XBOX.BUTTONS.RIGHT_BUMPER, CONSTANTS.XBOX.TRIGGER.AXIS_LT, CONSTANTS.XBOX.TRIGGER.AXIS_RT, CONSTANTS.XBOX.BUTTONS.OFF, Option.some.injEq]
    norm_num
    omega
  · rw [show (MessageFormatter.unpack_xbox_buttons_2 (MessageFormatter.pack_xbox_buttons_2 xv)).lookup (CONSTANTS.XBOX.BUTTONS.LEFT_BUMPER + 6)
        = some (MessageFormatter.pack_xbox_buttons_2 xv / 1 % 4) from (lookup_unpack_xbox_2 (MessageFormatter.pack_xbox_buttons_2 xv)).1]
    simp only [MessageFormatter.pack_xbox_buttons_2, CONSTANTS.XBOX.BUTTONS.A, CONSTANTS.XBOX.BUTTONS.B, CONSTANTS.XBOX.BUTTONS.X, CONSTANTS.XBOX.BUTTONS.Y, CONSTANTS.XBOX.BUTTONS.LEFT_BUMPER, CONSTANTS.XBOX.BUTTONS.RIGHT_BUMPER, CONSTANTS.XBOX.TRIGGER.AXIS_LT, CONSTANTS.XBOX.TRIGGER.AXIS_RT, CONSTANTS.XBOX.BUTTONS.OFF, Option.some.injEq]
    norm_num
    omega
  · rw [show (MessageFormatter.unpack_xbox_buttons_2 (MessageFormatter.pack_xbox_buttons_2 xv)).lookup (CONSTANTS.XBOX.BUTTONS.RIGHT_BUMPER + 6)
        = some (MessageFormatter.pack_xbox_buttons_2 xv / 4 % 4) from (lookup_unpack_xbox_2 (MessageFormatter.pack_xbox_buttons_2 xv)).2.1]
    simp only [MessageFormatter.pack_xbox_buttons_2, CONSTANTS.XBOX.BUTTONS.A, CONSTANTS.XBOX.BUTTONS.B, CONSTANTS.XBOX.BUTTONS.X, CONSTANTS.XBOX.BUTTONS.Y, CONSTANTS.XBOX.BUTTONS.LEFT_BUMPER, CONSTANTS.XBOX.BUTTONS.RIGHT_BUMPER, CONSTANTS.XBOX.TRIGGER.AXIS_LT, CONSTANTS.XBOX.TRIGGER.AXIS_RT, CONSTANTS.XBOX.BUTTONS.OFF, Option.some.injEq]
    norm_num
    omega
  · rw [show (MessageFormatter.unpack_xbox_buttons_2 (MessageFormatter.pack_xbox_buttons_2 xv)).lookup (CONSTANTS.XBOX.TRIGGER.AXIS_LT)
        = some (MessageFormatter.pack_xbox_buttons_2 xv / 16 % 4) from (lookup_unpack_xbox_2 (MessageFormatter.pack_xbox_buttons_2 xv)).2.2.1]
    simp only [MessageFormatter.pack_xbox_buttons_2, CONSTANTS.XBOX.BUTTONS.A, CONSTANTS.XBOX.BUTTONS.B, CONSTANTS.XBOX.BUTTONS.X, CONSTANTS.XBOX.BUTTONS.Y, CONSTANTS.XBOX.BUTTONS.LEFT_BUMPER, CONSTANTS.XBOX.BUTTONS.RIGHT_BUMPER, CONSTANTS.XBOX.TRIGGER.AXIS_LT, CONSTANTS.XBOX.TRIGGER.AXIS_RT, CONSTANTS.XBOX.BUTTONS.OFF, Option.some.injEq]
    norm_num
    omega
  · rw [show (MessageFormatter.unpack_xbox_buttons_2 (MessageFormatter.pack_xbox_buttons_2 xv)).lookup (CONSTANTS.XBOX.TRIGGER.AXIS_RT)
        = some (MessageFormatter.pack_xbox_buttons_2 xv / 64 % 4) from (lookup_unpack_xbox_2 (MessageFormatter.pack_xbox_buttons_2 xv)).2.2.2]
    simp only [MessageFormatter.pack_xbox_buttons_2, CONSTANTS.XBOX.BUTTONS.A, CONSTANTS.XBOX.BUTTONS.B, CONSTANTS.XBOX.BUTTONS.X, CONSTANTS.XBOX.BUTTONS.Y, CONSTANTS.XBOX.BUTTONS.LEFT_BUMPER, CONSTANTS.XBOX.BUTTONS.RIGHT_BUMPER, CONSTANTS.XBOX.TRIGGER.AXIS_LT, CONSTANTS.XBOX.TRIGGER.AXIS_RT, CONSTANTS.XBOX.BUTTONS.OFF, Option.some.injEq]
    norm_num
    omega
  · rw [show (MessageFormatter.unpack_n64_buttons_1 (MessageFormatter.pack_n64_buttons_1 nv)).lookup (CONSTANTS.N64.BUTTONS.A)
        = some (MessageFormatter.pack_n64_buttons_1 nv / 1 % 4) from (lookup_unpack_n64_1 (MessageFormatter.pack_n64_buttons_1 nv)).1]
    simp only [MessageFormatter.pack_n64_buttons_1, CONSTANTS.N64.BUTTONS.A, CONSTANTS.N64.BUTTONS.B, CONSTANTS.N64.BUTTONS.L, CONSTANTS.N64.BUTTONS.R, CONSTANTS.N64.BUTTONS.C_UP, CONSTANTS.N64.BUTTONS.C_DOWN, CONSTANTS.N64.BUTTONS.C_LEFT, CONSTANTS.N64.BUTTONS.C_RIGHT, CONSTANTS.N64.BUTTONS.DP_UP, CONSTANTS.N64.BUTTONS.DP_DOWN, CONSTANTS.N64.BUTTONS.DP_LEFT, CONSTANTS.N64.BUTTONS.DP_RIGHT, CONSTANTS.N64.BUTTONS.Z, CONSTANTS.N64.BUTTONS.OFF, Option.some.injEq]
    norm_num
    omega
  · rw [show (MessageFormatter.unpack_n64_buttons_1 (MessageFormatter.pack_n64_buttons_1 nv)).lookup (CONSTANTS.N64.BUTTONS.B)
        = some (MessageFormatter.pack_n64_buttons_1 nv / 4 % 4) from (lookup_unpack_n64_1 (MessageFormatter.pack_n64_buttons_1 nv)).2.1]
    simp only [MessageFormatter.pack_n64_buttons_1, CONSTANTS.N64.BUTTONS.A, CONSTANTS.N64.BUTTONS.B, CONSTANTS.N64.BUTTONS.L, CONSTANTS.N64.BUTTONS.R, CONSTANTS.N64.BUTTONS.C_UP, CONSTANTS.N64.BUTTONS.C_DOWN, CONSTANTS.N64.BUTTONS.C_LEFT, CONSTANTS.N64.BUTTONS.C_RIGHT, CONSTANTS.N64.BUTTONS.DP_UP, CONSTANTS.N64.BUTTONS.DP_DOWN, CONSTANTS.N64.BUTTONS.DP_LEFT, CONSTANTS.N64.BUTTONS.DP_RIGHT, CONSTANTS.N64.BUTTONS.Z, CONSTANTS.N64.BUTTONS.OFF, Option.some.injEq]
    norm_num
    omega
  · rw [show (MessageFormatter.unpack_n64_buttons_1 (MessageFormatter.pack_n64_buttons_1 nv)).lookup (CONSTANTS.N64.BUTTONS.L)
        = some (MessageFormatter.pack_n64_buttons_1 nv / 16 % 4) from (lookup_unpack_n64_1 (MessageFormatter.pack_n64_buttons_1 nv)).2.2.1]
    simp only [MessageFormatter.pack_n64_buttons_1, CONSTANTS.N64.BUTTONS.A, CONSTANTS.N64.BUTTONS.B, CONSTANTS.N64.BUTTONS.L, CONSTANTS.N64.BUTTONS.R, CONSTANTS.N64.BUTTONS.C_UP, CONSTANTS.N64.BUTTONS.C_DOWN, CONSTANTS.N64.BUTTONS.C_LEFT, CONSTANTS.N64.BUTTONS.C_RIGHT, CONSTANTS.N64.BUTTONS.DP_UP, CONSTANTS.N64.BUTTONS.DP_DOWN, CONSTANTS.N64.BUTTONS.DP_LEFT, CONSTANTS.N64.BUTTONS.DP_RIGHT, CONSTANTS.N64.BUTTONS.Z, CONSTANTS.N64.BUTTONS.OFF, Option.some.injEq]
    norm_num
    omega
  · rw [show (MessageFormatter.unpack_n64_buttons_1 (MessageFormatter.pack_n64_buttons_1 nv)).lookup (CONSTANTS.N64.BUTTONS.R)
        = some (MessageFormatter.pack_n64_buttons_1 nv / 64 % 4) from (lookup_unpack_n64_1 (MessageFormatter.pack_n64_buttons_1 nv)).2.2.2]
    simp only [MessageFormatter.pack_n64_buttons_1, CONSTANTS.N64.BUTTONS.A, CONSTANTS.N64.BUTTONS.B, CONSTANTS.N64.BUTTONS.L, CONSTANTS.N64.BUTTONS.R, CONSTANTS.N64.BUTTONS.C_UP, CONSTANTS.N64.BUTTONS.C_DOWN, CONSTANTS.N64.BUTTONS.C_LEFT, CONSTANTS.N64.BUTTONS.C_RIGHT, CONSTANTS.N64.BUTTONS.DP_UP, CONSTANTS.N64.BUTTONS.DP_DOWN, CONSTANTS.N64.BUTTONS.DP_LEFT, CONSTANTS.N64.BUTTONS.DP_RIGHT, CONSTANTS.N64.BUTTONS.Z, CONSTANTS.N64.BUTTONS.OFF, Option.some.injEq]
    norm_num
    omega
  · rw [show (MessageFormatter.unpack_n64_buttons_2 (MessageFormatter.pack_n64_buttons_2 nv)).lookup (CONSTANTS.N64.BUTTONS.C_UP)
        = some (MessageFormatter.pack_n64_buttons_2 nv / 1 % 4) from (lookup_unpack_n64_2 (MessageFormatter.pack_n64_buttons_2 nv)).1]
    simp only [MessageFormatter.pack_n64_buttons_2, CONSTANTS.N64.BUTTONS.A, CONSTANTS.N64.BUTTONS.B, CONSTANTS.N64.BUTTONS.L, CONSTANTS.N64.BUTTONS.R, CONSTANTS.N64.BUTTONS.C_UP, CONSTANTS.N64.BUTTONS.C_DOWN, CONSTANTS.N64.BUTTONS.C_LEFT, CONSTANTS.N64.BUTTONS.C_RIGHT, CONSTANTS.N64.BUTTONS.DP_UP, CONSTANTS.N64.BUTTONS.DP_DOWN, CONSTANTS.N64.BUTTONS.DP_LEFT, CONSTANTS.N64.BUTTONS.DP_RIGHT, CONSTANTS.N64.BUTTONS.Z, CONSTANTS.N64.BUTTONS.OFF, Option.some.injEq]
    norm_num
    omega
  · rw [show (MessageFormatter.unpack_n64_buttons_2 (MessageFormatter.pack_n64_buttons_2 nv)).lookup (CONSTANTS.N64.BUTTONS.C_DOWN)
        = some (MessageFormatter.pack_n64_buttons_2 nv / 4 % 4) from (lookup_unpack_n64_2 (MessageFormatter.pack_n64_buttons_2 nv)).2.1]
    simp only [MessageFormatter.pack_n64_buttons_2, CONSTANTS.N64.BUTTONS.A, CONSTANTS.N64.BUTTONS.B, CONSTANTS.N64.BUTTONS.L, CONSTANTS.N64.BUTTONS.R, CONSTANTS.N64.BUTTONS.C_UP, CONSTANTS.N64.BUTTONS.C_DOWN, CONSTANTS.N64.BUTTONS.C_LEFT, CONSTANTS.N64.BUTTONS.C_RIGHT, CONSTANTS.N64.BUTTONS.DP_UP, CONSTANTS.N64.BUTTONS.DP_DOWN, CONSTANTS.N64.BUTTONS.DP_LEFT, CONSTANTS.N64.BUTTONS.DP_RIGHT, CONSTANTS.N64.BUTTONS.Z, CONSTANTS.N64.BUTTONS.OFF, Option.some.injEq]
    norm_num
    omega
  · rw [show (MessageFormatter.unpack_n64_buttons_2 (MessageFormatter.pack_n64_buttons_2 nv)).lookup (CONSTANTS.N64.BUTTONS.C_LEFT)
        = some (MessageFormatter.pack_n64_buttons_2 nv / 16 % 4) from (lookup_unpack_n64_2 (MessageFormatter.pack_n64_buttons_2 nv)).2.2.1]
    simp only [MessageFormatter.pack_n64_buttons_2, CONSTANTS.N64.BUTTONS.A, CONSTANTS.N64.BUTTONS.B, CONSTANTS.N64.BUTTONS.L, CONSTANTS.N64.BUTTONS.R, CONSTANTS.N64.BUTTONS.C_UP, CONSTANTS.N64.BUTTONS.C_DOWN, CONSTANTS.N64.BUTTONS.C_LEFT, CONSTANTS.N64.BUTTONS.C_RIGHT, CONSTANTS.N64.BUTTONS.DP_UP, CONSTANTS.N64.BUTTONS.DP_DOWN, CONSTANTS.N64.BUTTONS.DP_LEFT, CONSTANTS.N64.BUTTONS.DP_RIGHT, CONSTANTS.N64.BUTTONS.Z, CONSTANTS.N64.BUTTONS.OFF, Option.some.injEq]
    norm_num
    omega
  · rw [show (MessageFormatter.unpack_n64_buttons_2 (MessageFormatter.pack_n64_buttons_2 nv)).lookup (CONSTANTS.N64.BUTTONS.C_RIGHT)
        = some (MessageFormatter.pack_n64_buttons_2 nv / 64 % 4) from (lookup_unpack_n64_2 (MessageFormatter.pack_n64_buttons_2 nv)).2.2.2]
    simp only [MessageFormatter.pack_n64_buttons_2, CONSTANTS.N64.BUTTONS.A, CONSTANTS.N64.BUTTONS.B, CONSTANTS.N64.BUTTONS.L, CONSTANTS.N64.BUTTONS.R, CONSTANTS.N64.BUTTONS.C_UP, CONSTANTS.N64.BUTTONS.C_DOWN, CONSTANTS.N64.BUTTONS.C_LEFT, CONSTANTS.N64.BUTTONS.C_RIGHT, CONSTANTS.N64.BUTTONS.DP_UP, CONSTANTS.N64.BUTTONS.DP_DOWN, CONSTANTS.N64.BUTTONS.DP_LEFT, CONSTANTS.N64.BUTTONS.DP_RIGHT, CONSTANTS.N64.BUTTONS.Z, CONSTANTS.N64.BUTTONS.OFF, Option.some.injEq]
    norm_num
    omega
  · rw [show (MessageFormatter.unpack_n64_buttons_3 (MessageFormatter.pack_n64_buttons_3 nv)).lookup (CONSTANTS.N64.BUTTONS.DP_UP)
        = some (MessageFormatter.pack_n64_buttons_3 nv / 1 % 4) from (lookup_unpack_n64_3 (MessageFormatter.pack_n64_buttons_3 nv)).1]
    simp only [MessageFormatter.pack_n64_buttons_3, CONSTANTS.N64.BUTTONS.A, CONSTANTS.N64.BUTTONS.B, CONSTANTS.N64.BUTTONS.L, CONSTANTS.N64.BUTTONS.R, CONSTANTS.N64.BUTTONS.C_UP, CONSTANTS.N64.BUTTONS.C_DOWN, CONSTANTS.N64.BUTTONS.C_LEFT, CONSTANTS.N64.BUTTONS.C_RIGHT, CONSTANTS.N64.BUTTONS.DP_UP, CONSTANTS.N64.BUTTONS.DP_DOWN, CONSTANTS.N64.BUTTONS.DP_LEFT, CONSTANTS.N64.BUTTONS.DP_RIGHT, CONSTANTS.N64.BUTTONS.Z, CONSTANTS.N64.BUTTONS.OFF, Option.some.injEq]
    norm_num
    omega
  · rw [show (MessageFormatter.unpack_n64_buttons_3 (MessageFormatter.pack_n64_buttons_3 nv)).lookup (CONSTANTS.N64.BUTTONS.DP_DOWN)
        = some (MessageFormatter.pack_n64_buttons_3 nv / 4 % 4) from (lookup_unpack_n64_3 (MessageFormatter.pack_n64_buttons_3 nv)).2.1]
    simp only [MessageFormatter.pack_n64_buttons_3, CONSTANTS.N64.BUTTONS.A, CONSTANTS.N64.BUTTONS.B, CONSTANTS.N64.BUTTONS.L, CONSTANTS.N64.BUTTONS.R, CONSTANTS.N64.BUTTONS.C_UP, CONSTANTS.N64.BUTTONS.C_DOWN, CONSTANTS.N64.BUTTONS.C_LEFT, CONSTANTS.N64.BUTTONS.C_RIGHT, CONSTANTS.N64.BUTTONS.DP_UP, CONSTANTS.N64.BUTTONS.DP_DOWN, CONSTANTS.N64.BUTTONS.DP_LEFT, CONSTANTS.N64.BUTTONS.DP_RIGHT, CONSTANTS.N64.BUTTONS.Z, CONSTANTS.N64.BUTTONS.OFF, Option.some.injEq]
    norm_num
    omega
  · rw [show (MessageFormatter.unpack_n64_buttons_3 (MessageFormatter.pack_n64_buttons_3 nv)).lookup (CONSTANTS.N64.BUTTONS.DP_LEFT)
        = some (MessageFormatter.pack_n64_buttons_3 nv / 16 % 4) from (lookup_unpack_n64_3 (MessageFormatter.pack_n64_buttons_3 nv)).2.2.1]
    simp only [MessageFormatter.pack_n64_buttons_3, CONSTANTS.N64.BUTTONS.A, CONSTANTS.N64.BUTTONS.B, CONSTANTS.N64.BUTTONS.L, CONSTANTS.N64.BUTTONS.R, CONSTANTS.N64.BUTTONS.C_UP, CONSTANTS.N64.BUTTONS.C_DOWN, CONSTANTS.N64.BUTTONS.C_LEFT, CONSTANTS.N64.BUTTONS.C_RIGHT, CONSTANTS.N64.BUTTONS.DP_UP, CONSTANTS.N64.BUTTONS.DP_DOWN, CONSTANTS.N64.BUTTONS.DP_LEFT, CONSTANTS.N64.BUTTONS.DP_RIGHT, CONSTANTS.N64.BUTTONS.Z, CONSTANTS.N64.BUTTONS.OFF, Option.some.injEq]
    norm_num
    omega
  · rw [show (MessageFormatter.unpack_n64_buttons_3 (MessageFormatter.pack_n64_buttons_3 nv)).lookup (CONSTANTS.N64.BUTTONS.DP_RIGHT)
        = some (MessageFormatter.pack_n64_buttons_3 nv / 64 % 4) from (lookup_unpack_n64_3 (MessageFormatter.pack_n64_buttons_3 nv)).2.2.2]
    simp only [MessageFormatter.pack_n64_buttons_3, CONSTANTS.N64.BUTTONS.A, CONSTANTS.N64.BUTTONS.B, CONSTANTS.N64.BUTTONS.L, CONSTANTS.N64.BUTTONS.R, CONSTANTS.N64.BUTTONS.C_UP, CONSTANTS.N64.BUTTONS.C_DOWN, CONSTANTS.N64.BUTTONS.C_LEFT, CONSTANTS.N64.BUTTONS.C_RIGHT, CONSTANTS.N64.BUTTONS.DP_UP, CONSTANTS.N64.BUTTONS.DP_DOWN, CONSTANTS.N64.BUTTONS.DP_LEFT, CONSTANTS.N64.BUTTONS.DP_RIGHT, CONSTANTS.N64.BUTTONS.Z, CONSTANTS.N64.BUTTONS.OFF, Option.some.injEq]
    norm_num
    omega
  · rw [show (MessageFormatter.unpack_n64_buttons_4 (MessageFormatter.pack_n64_buttons_4 nv)).lookup (CONSTANTS.N64.BUTTONS.Z)
        = some (MessageFormatter.pack_n64_buttons_4 nv / 1 % 4) from (lookup_unpack_n64_4 (MessageFormatter.pack_n64_buttons_4 nv))]
    simp only [MessageFormatter.pack_n64_buttons_4, CONSTANTS.N64.BUTTONS.A, CONSTANTS.N64.BUTTONS.B, CONSTANTS.N64.BUTTONS.L, CONSTANTS.N64.BUTTONS.R, CONSTANTS.N64.BUTTONS.C_UP, CONSTANTS.N64.BUTTONS.C_DOWN, CONSTANTS.N64.BUTTONS.C_LEFT, CONSTANTS.N64.BUTTONS.C_RIGHT, CONSTANTS.N64.BUTTONS.DP_UP, CONSTANTS.N64.BUTTONS.DP_DOWN, CONSTANTS.N64.BUTTONS.DP_LEFT, CONSTANTS.N64.BUTTONS.DP_RIGHT, CONSTANTS.N64.BUTTONS.Z, CONSTANTS.N64.BUTTONS.OFF, Option.some.injEq]
    norm_num
    omega

/-! ## Legality of controller value dicts (spec §4.3: axis entries are single
bytes, button entries are OFF/ON = 1/2; any subset of keys may be absent). -/

/-- The entry at `k`, if present, is a legal button value (1 or 2). -/
def entryButtonOk (d : Dict) (k : Nat) : Bool :=
  match d.lookup k with
  | none => true
  | some v => v = 1 || v = 2

/-- The entry at `k`, if present, is a single byte. -/
def entryByteOk (d : Dict) (k : Nat) : Bool :=
  match d.lookup k with
  | none => true
  | some v => v < 256

/-- All entries the Xbox half of the codec reads are legal. -/
def xboxLegal (d : Dict) : Bool :=
  entryByteOk d CONSTANTS.XBOX.JOYSTICK.AXIS_LY
  && entryByteOk d CONSTANTS.XBOX.JOYSTICK.AXIS_RY
  && entryButtonOk d (CONSTANTS.XBOX.BUTTONS.A + 6)
  && entryButtonOk d (CONSTANTS.XBOX.BUTTONS.B + 6)
  && entryButtonOk d (CONSTANTS.XBOX.BUTTONS.X + 6)
  && entryButtonOk d (CONSTANTS.XBOX.BUTTONS.Y + 6)
  && entryButtonOk d (CONSTANTS.XBOX.BUTTONS.LEFT_BUMPER + 6)
  && entryButtonOk d (CONSTANTS.XBOX.BUTTONS.RIGHT_BUMPER + 6)
  && entryButtonOk d CONSTANTS.XBOX.TRIGGER.AXIS_LT
  && entryButtonOk d CONSTANTS.XBOX.TRIGGER.AXIS_RT

/-- All entries the N64 half of the codec reads are legal. -/
def n64Legal (d : Dict) : Bool :=
  entryButtonOk d CONSTANTS.N64.BUTTONS.A
  && entryButtonOk d CONSTANTS.N64.BUTTONS.B
  && entryButtonOk d CONSTANTS.N64.BUTTONS.L
  && entryButtonOk d CONSTANTS.N64.BUTTONS.R
  && entryButtonOk d CONSTANTS.N64.BUTTONS.C_UP
  && entryButtonOk d CONSTANTS.N64.BUTTONS.C_DOWN
  && entryButtonOk d CONSTANTS.N64.BUTTONS.C_LEFT
  && entryButtonOk d CONSTANTS.N64.BUTTONS.C_RIGHT
  && entryButtonOk d CONSTANTS.N64.BUTTONS.DP_UP
  && entryButtonOk d CONSTANTS.N64.BUTTONS.DP_DOWN
  && entryButtonOk d CONSTANTS.N64.BUTTONS.DP_LEFT
  && entryButtonOk d CONSTANTS.N64.BUTTONS.DP_RIGHT
  && entryButtonOk d CONSTANTS.N64.BUTTONS.Z

theorem entryButtonOk_dictGet {d : Dict} {k : Nat}
    (h : entryButtonOk d k = true) (dflt : Nat) (hd : dflt ≤ 2) :
    dictGet d k dflt ≤ 2 := by
  unfold entryButtonOk at h
  unfold dictGet
  cases hl : d.lookup k with
  | none => simpa using hd
  | some v =>
    rw [hl] at h
    simp at h
    simp
    omega

theorem entryByteOk_dictGet {d : Dict} {k : Nat}
    (h : entryByteOk d k = true) (dflt : Nat) (hd : dflt < 256) :
    dictGet d k dflt < 256 := by
  unfold entryByteOk at h
  unfold dictGet
  cases hl : d.lookup k with
  | none => simpa using hd
  | some v =>
    rw [hl] at h
    simpa using h

/-- C7: for every pair of Xbox and N64 value mappings, `create_combined_message`
returns a frame of exactly 10 bytes; and when all present entries are legal
(axis entries single bytes, button entries OFF/ON), every element passed to
`bytearray` is a valid byte (< 256), so the call never raises — absent keys
are replaced by the OFF/neutral defaults inside the pack functions. -/
theorem C7_combined_message_shape :
    (∀ (xv nv : Dict) (rm : Bool),
      (MessageFormatter.create_combined_message xv nv rm).length = 10)
    ∧ (∀ (xv nv : Dict) (rm : Bool), xboxLegal xv = true → n64Legal nv = true →
        ∀ b ∈ MessageFormatter.create_combined_message xv nv rm, b < 256) := by
  constructor
  · intro xv nv rm
    cases rm <;> rfl
  · intro xv nv rm hx hn b hb
    simp only [xboxLegal, Bool.and_eq_true] at hx
    simp only [n64Legal, Bool.and_eq_true] at hn
    obtain ⟨⟨⟨⟨⟨⟨⟨⟨⟨hly, hry⟩, ha⟩, hbb⟩, hxx⟩, hyy⟩, hlb⟩, hrb⟩, hlt⟩, hrt⟩ := hx
    obtain ⟨⟨⟨⟨⟨⟨⟨⟨⟨⟨⟨⟨hna, hnb⟩, hnl⟩, hnr⟩, hcu⟩, hcd⟩, hcl⟩, hcr⟩, hdu⟩, hdd⟩, hdl⟩, hdr⟩, hnz⟩ := hn
    have b1 : MessageFormatter.pack_xbox_buttons_1 xv < 256 := by
      unfold MessageFormatter.pack_xbox_buttons_1
      have := entryButtonOk_dictGet ha CONSTANTS.XBOX.BUTTONS.OFF (by decide)
      have := entryButtonOk_dictGet hbb CONSTANTS.XBOX.BUTTONS.OFF (by decide)
      have := entryButtonOk_dictGet hxx CONSTANTS.XBOX.BUTTONS.OFF (by decide)
      have := entryButtonOk_dictGet hyy CONSTANTS.XBOX.BUTTONS.OFF (by decide)
      omega
    have b2 : MessageFormatter.pack_xbox_buttons_2 xv < 256 := by
      unfold MessageFormatter.pack_xbox_buttons_2
      have := entryButtonOk_dictGet hlb CONSTANTS.XBOX.BUTTONS.OFF (by decide)
      have := entryButtonOk_dictGet hrb CONSTANTS.XBOX.BUTTONS.OFF (by decide)
      have := entryButtonOk_dictGet hlt CONSTANTS.XBOX.BUTTONS.OFF (by decide)
      have := entryButtonOk_dictGet hrt CONSTANTS.XBOX.BUTTONS.OFF (by decide)
      omega
    have b3 : MessageFormatter.pack_n64_buttons_1 nv < 256 := by
      unfold MessageFormatter.pack_n64_buttons_1
      have := entryButtonOk_dictGet hna CONSTANTS.N64.BUTTONS.OFF (by decide)
      have := entryButtonOk_dictGet hnb CONSTANTS.N64.BUTTONS.OFF (by decide)
      have := entryButtonOk_dictGet hnl CONSTANTS.N64.BUTTONS.OFF (by decide)
      have := entryButtonOk_dictGet hnr CONSTANTS.N64.BUTTONS.OFF (by decide)
      omega
    have b4 : MessageFormatter.pack_n64_buttons_2 nv < 256 := by
      unfold MessageFormatter.pack_n64_buttons_2
      have := entryButtonOk_dictGet hcu CONSTANTS.N64.BUTTONS.OFF (by decide)
      have := entryButtonOk_dictGet hcd CONSTANTS.N64.BUTTONS.OFF (by decide)
      have := entryButtonOk_dictGet hcl CONSTANTS.N64.BUTTONS.OFF (by decide)
      have := entryButtonOk_dictGet hcr CONSTANTS.N64.BUTTONS.OFF (by decide)
      omega
    have b5 : MessageFormatter.pack_n64_buttons_3 nv < 256 := by
      unfold MessageFormatter.pack_n64_buttons_3
      have := entryButtonOk_dictGet hdu CONSTANTS.N64.BUTTONS.OFF (by decide)
      have := entryButtonOk_dictGet hdd CONSTANTS.N64.BUTTONS.OFF (by decide)
      have := entryButtonOk_dictGet hdl CONSTANTS.N64.BUTTONS.OFF (by decide)
      have := entryButtonOk_dictGet hdr CONSTANTS.N64.BUTTONS.OFF (by decide)
      omega
    have b6 : MessageFormatter.pack_n64_buttons_4 nv < 256 := by
      unfold MessageFormatter.pack_n64_buttons_4
      have := entryButtonOk_dictGet hnz CONSTANTS.N64.BUTTONS.OFF (by decide)
      omega
    have aly := entryByteOk_dictGet hly 0x64 (by norm_num)
    have ary := entryByteOk_dictGet hry 0x64 (by norm_num)
    cases rm <;>
      simp [MessageFormatter.create_combined_message,
        MessageFormatter.create_xbox_message, MessageFormatter.create_n64_message,
        CONSTANTS.START_MESSAGE] at hb <;>
      rcases hb with rfl | rfl | rfl | rfl | rfl | rfl | rfl | rfl | rfl | rfl <;>
      first
        | exact aly | exact ary | exact b1 | exact b2
        | exact b3 | exact b4 | exact b5 | exact b6
        | norm_num

/-- Witness for C7 at concrete (empty) value mappings. -/
theorem C7_combined_message_shape_witness :
    (MessageFormatter.create_combined_message [] [] false).length = 10
    ∧ xboxLegal [] = true ∧ n64Legal [] = true
    ∧ ∀ b ∈ MessageFormatter.create_combined_message [] [] false, b < 256 :=
  ⟨C7_combined_message_shape.1 [] [] false, by decide, by decide,
    C7_combined_message_shape.2 [] [] false (by decide) (by decide)⟩

/-- Witness for C3 at the fully-populated default controller state, whose
xbox mapping carries the neutral axis bytes (value 100) alongside the OFF
field values. -/
theorem C3_button_byte_roundtrip_witness :
    xboxFieldsLT4 ControllerState.xboxDefaults = true
    ∧ n64FieldsLT4 ControllerState.n64Defaults = true
    ∧ (MessageFormatter.unpack_xbox_buttons_1
        (MessageFormatter.pack_xbox_buttons_1 ControllerState.xboxDefaults)).lookup
          (CONSTANTS.XBOX.BUTTONS.A + 6) = some 1 := by
  refine ⟨by decide, by decide, ?_⟩
  have h := (C3_button_byte_roundtrip ControllerState.xboxDefaults
    ControllerState.n64Defaults (by decide) (by decide)).1
  exact h.trans (by decide)

/-- C1 counterexample: with the transport present, a fresh frame differing
from the cached last frame, and `send_data` raising, the call reports "not
sent" but the cache does NOT hold the new frame — it is left unchanged, so
the claim's "the cache still holds the new frame" fails at this input. -/
theorem C1_cache_on_failure_counterexample :
    MessageFormatter.create_combined_message [] [] false ≠
      (CommState.mk true true [] []).last_message
    ∧ ((CommState.mk true true [] []).send_controller_data false [] [] false).1 = false
    ∧ ((CommState.mk true true [] []).send_controller_data false [] [] false).2.last_message ≠
        MessageFormatter.create_combined_message [] [] false := by
  refine ⟨by decide, by decide, by decide⟩

/-- C1 amended: whenever the freshly built frame differs from the cached
last-sent frame, the frame is handed to the transport's send primitive; if
the send completes, the call returns True and the cache is updated to the new
frame; if the send raises, the failure is caught, the call returns False, and
the cache is left unchanged (it is updated only after a successful send). -/
theorem C1_send_failure_cache_unchanged (s : CommState) (xv nv : Dict)
    (rm : Bool) (hen : s.enabled = true) (hdev : s.has_device = true)
    (hdiff : MessageFormatter.create_combined_message xv nv rm ≠ s.last_message) :
    (s.send_controller_data true xv nv rm).1 = true
    ∧ (s.send_controller_data true xv nv rm).2.last_message =
        MessageFormatter.create_combined_message xv nv rm
    ∧ (s.send_controller_data true xv nv rm).2.send_calls =
        s.send_calls ++ [MessageFormatter.create_combined_message xv nv rm]
    ∧ (s.send_controller_data false xv nv rm).1 = false
    ∧ (s.send_controller_data false xv nv rm).2.last_message = s.last_message
    ∧ (s.send_controller_data false xv nv rm).2.send_calls =
        s.send_calls ++ [MessageFormatter.create_combined_message xv nv rm] := by
  unfold CommState.send_controller_data
  rw [hen, hdev]
  simp [hdiff]

/-- Witness for the amended C1 at a concrete state and inputs. -/
theorem C1_send_failure_cache_unchanged_witness :
    (CommState.mk true true [] []).enabled = true
    ∧ (CommState.mk true true [] []).has_device = true
    ∧ MessageFormatter.create_combined_message [] [] false ≠
        (CommState.mk true true [] []).last_message
    ∧ ((CommState.mk true true [] []).send_controller_data false [] [] false).1 = false
    ∧ ((CommState.mk true true [] []).send_controller_data false [] [] false).2.last_message =
        (CommState.mk true true [] []).last_message :=
  ⟨by decide, by decide, by decide,
    (C1_send_failure_cache_unchanged (CommState.mk true true [] []) [] [] false
      (by decide) (by decide) (by decide)).2.2.2.1,
    (C1_send_failure_cache_unchanged (CommState.mk true true [] []) [] [] false
      (by decide) (by decide) (by decide)).2.2.2.2.1⟩

/-- C2: with the transport available and the first transmission succeeding,
two consecutive calls whose inputs build byte-identical frames make exactly
one call to the transport's send primitive: the first returns True and logs
one frame; the second compares equal against the cached frame, skips the
send (no new log entry, state unchanged) and returns False. -/
theorem C2_duplicate_suppression (s : CommState) (xv1 nv1 : Dict) (rm1 : Bool)
    (xv2 nv2 : Dict) (rm2 : Bool)
    (hen : s.enabled = true) (hdev : s.has_device = true)
    (hdiff : MessageFormatter.create_combined_message xv1 nv1 rm1 ≠ s.last_message)
    (hsame : MessageFormatter.create_combined_message xv2 nv2 rm2 =
      MessageFormatter.create_combined_message xv1 nv1 rm1) :
    (s.send_controller_data true xv1 nv1 rm1).1 = true
    ∧ ((s.send_controller_data true xv1 nv1 rm1).2.send_controller_data true xv2 nv2 rm2).1 = false
    ∧ ((s.send_controller_data true xv1 nv1 rm1).2.send_controller_data true xv2 nv2 rm2).2 =
        (s.send_controller_data true xv1 nv1 rm1).2
    ∧ ((s.send_controller_data true xv1 nv1 rm1).2.send_controller_data true xv2 nv2 rm2).2.send_calls =
        s.send_calls ++ [MessageFormatter.create_combined_message xv1 nv1 rm1] := by
  unfold CommState.send_controller_data
  rw [hen, hdev]
  simp [hdiff, hsame]

/-- Witness for C2 at a concrete state and inputs. -/
theorem C2_duplicate_suppression_witness :
    (CommState.mk true true [] []).enabled = true
    ∧ MessageFormatter.create_combined_message [] [] false ≠
        (CommState.mk true true [] []).last_message
    ∧ ((CommState.mk true true [] []).send_controller_data true [] [] false).1 = true
    ∧ (((CommState.mk true true [] []).send_controller_data true [] [] false).2.send_controller_data
        true [] [] false).1 = false
    ∧ (((CommState.mk true true [] []).send_controller_data true [] [] false).2.send_controller_data
        true [] [] false).2.send_calls =
        [MessageFormatter.create_combined_message [] [] false] := by
  have h := C2_duplicate_suppression (CommState.mk true true [] []) [] [] false [] [] false
    (by decide) (by decide) (by decide) rfl
  exact ⟨by decide, by decide, h.1, h.2.1, h.2.2.2.trans (by decide)⟩

/-- The claim's formula for the stored axis byte:
`clamp(floor(m * d + 100), 0, 200)` with `d = v` if `|v| >= 0.10` else `0`,
and `m = 100` normally, `20` in creep mode, negated in reverse mode. -/
def axis_byte_claim (v : ℚ) (creep_mode reverse_mode : Bool) : Int :=
  let m : Int := if reverse_mode then -(if creep_mode then 20 else 100)
                 else if creep_mode then 20 else 100
  let d : ℚ := if |v| ≥ 1/10 then v else 0
  min 200 (max 0 (Int.floor ((m : ℚ) * d + 100)))

/-- C4: the primary-profile axis pipeline computes exactly the claim's
formula (deadband before scaling, clamping after); with both modes off,
`v = 0.5` yields 150 and the byte stored in the state at the event's axis key
is `0x96 = 150`; and any `|v| < 0.10` yields the same byte as `v = 0`. -/
theorem C4_axis_transform :
    (∀ (v : ℚ) (c r : Bool),
      InputProcessor.process_joystick_axis_value v c r = axis_byte_claim v c r)
    ∧ InputProcessor.process_joystick_axis_value (1/2) false false = 150
    ∧ ((InputProcessor.process_joystick_axis ControllerState.init
          CONSTANTS.XBOX.JOYSTICK.AXIS_LY (1/2) false false).get_controller_values
          "xbox").lookup CONSTANTS.XBOX.JOYSTICK.AXIS_LY = some 150
    ∧ (∀ v : ℚ, |v| < CONSTANTS.TIMING.DEADBAND_THRESHOLD → ∀ c r : Bool,
        InputProcessor.process_joystick_axis_value v c r =
          InputProcessor.process_joystick_axis_value 0 c r) := by
  have habs : |(1/2 : ℚ)| = 1/2 := by rw [abs_of_nonneg]; norm_num
  have hval : InputProcessor.process_joystick_axis_value (1/2) false false = 150 := by
    norm_num [InputProcessor.process_joystick_axis_value,
      InputProcessor.calculate_axis_multiplier, InputProcessor.convert_axis_value,
      CONSTANTS.TIMING.DEADBAND_THRESHOLD, CONSTANTS.CONTROLLER_MODES.NORMAL_MULTIPLIER,
      CONSTANTS.XBOX.JOYSTICK.NEUTRAL_INT, CONSTANTS.XBOX.JOYSTICK.MIN_VALUE,
      CONSTANTS.XBOX.JOYSTICK.MAX_VALUE, habs]
  refine ⟨?_, hval, ?_, ?_⟩
  · intro v c r
    have hm : InputProcessor.calculate_axis_multiplier c r =
        (if r then -(if c then 20 else 100) else if c then 20 else 100 : Int) := by
      cases c <;> cases r <;> rfl
    unfold InputProcessor.process_joystick_axis_value axis_byte_claim
      InputProcessor.convert_axis_value
    rw [hm]
    simp only [CONSTANTS.XBOX.JOYSTICK.NEUTRAL_INT, CONSTANTS.XBOX.JOYSTICK.MIN_VALUE,
      CONSTANTS.XBOX.JOYSTICK.MAX_VALUE, CONSTANTS.TIMING.DEADBAND_THRESHOLD]
    generalize (⌊(((if r then -(if c then 20 else 100) else if c then 20 else 100 : Int) : ℚ) *
      (if |v| ≥ 1/10 then v else 0) + 100)⌋ : Int) = n
    omega
  · unfold InputProcessor.process_joystick_axis
    rw [hval]
    decide
  · intro v hv c r
    unfold InputProcessor.process_joystick_axis_value
    have h1 : ¬ (|v| ≥ CONSTANTS.TIMING.DEADBAND_THRESHOLD) := by push_neg; exact hv
    have h2 : ¬ (|(0:ℚ)| ≥ CONSTANTS.TIMING.DEADBAND_THRESHOLD) := by
      push_neg
      simp [CONSTANTS.TIMING.DEADBAND_THRESHOLD]
    rw [if_neg h1, if_neg h2]

/-- Witness for C4's deadband clause at `v = 1/20`. -/
theorem C4_axis_transform_witness :
    |(1/20 : ℚ)| < CONSTANTS.TIMING.DEADBAND_THRESHOLD
    ∧ InputProcessor.process_joystick_axis_value (1/20) false false =
        InputProcessor.process_joystick_axis_value 0 false false :=
  ⟨by rw [CONSTANTS.TIMING.DEADBAND_THRESHOLD, abs_of_nonneg] <;> norm_num,
   C4_axis_transform.2.2.2 (1/20)
     (by rw [CONSTANTS.TIMING.DEADBAND_THRESHOLD, abs_of_nonneg] <;> norm_num)
     false false⟩

/-- C5: `last_heartbeat_time` is advanced only when the transport's
`send_data` completes without raising; when it raises, the exception is
caught, the call returns False and the whole state (in particular
`last_heartbeat_time`) is unchanged, so `should_send_heartbeat` remains true
at every clock reading from `now` on and the next `update` retries
immediately. -/
theorem C5_heartbeat_failure_no_advance (s : HeartbeatState) (now : Int)
    (hen : s.enabled = true) (hdev : s.has_device = true) :
    ((s.send_heartbeat now true).2.last_heartbeat_time = now)
    ∧ (s.send_heartbeat now false = (false, s))
    ∧ (s.should_send_heartbeat now = true →
        (s.update now false = (false, s))
        ∧ (∀ now' : Int, now ≤ now' → s.should_send_heartbeat now' = true)) := by
  refine ⟨?_, ?_, ?_⟩
  · unfold HeartbeatState.send_heartbeat
    rw [hen, hdev]
    simp
  · unfold HeartbeatState.send_heartbeat
    rw [hen, hdev]
    simp
  · intro hdue
    constructor
    · unfold HeartbeatState.update
      rw [hdue]
      unfold HeartbeatState.send_heartbeat
      rw [hen, hdev]
      simp
    · intro now' hle
      unfold HeartbeatState.should_send_heartbeat at hdue ⊢
      simp only [ge_iff_le, decide_eq_true_eq] at hdue ⊢
      omega

/-- Witness for C5 at a concrete due heartbeat state. -/
theorem C5_heartbeat_failure_no_advance_witness :
    (HeartbeatState.init true true).enabled = true
    ∧ ((HeartbeatState.init true true).send_heartbeat 2000000000 false =
        (false, HeartbeatState.init true true))
    ∧ (HeartbeatState.init true true).should_send_heartbeat 2000000000 = true
    ∧ (HeartbeatState.init true true).update 2000000000 false =
        (false, HeartbeatState.init true true) := by
  have h := C5_heartbeat_failure_no_advance (HeartbeatState.init true true)
    2000000000 (by decide) (by decide)
  exact ⟨by decide, h.2.1, by decide, (h.2.2 (by decide)).1⟩

/-- C6: with the select modifier ON in the Xbox state, a D-pad UP event sets
`reverse_mode := true`; a second UP (modifier still ON, no intervening DOWN)
leaves it true — the operation sets the flag, it does not flip it; a D-pad
DOWN with the same modifier clears it; and a joypad event that is neither UP
nor DOWN (such as the neutral direction) changes nothing. -/
theorem C6_reverse_mode_edge_trigger (m : ManagerState)
    (hsel : ((m.controller_state.values.lookup "xbox").getD []).lookup
      (CONSTANTS.XBOX.BUTTONS.SELECT + 6) = some CONSTANTS.XBOX.BUTTONS.ON) :
    (m.update_mode_flags CONSTANTS.XBOX.JOYPAD.UP "xbox").reverse_mode = true
    ∧ ((m.update_mode_flags CONSTANTS.XBOX.JOYPAD.UP "xbox").update_mode_flags
        CONSTANTS.XBOX.JOYPAD.UP "xbox").reverse_mode = true
    ∧ ((m.update_mode_flags CONSTANTS.XBOX.JOYPAD.UP "xbox").update_mode_flags
        CONSTANTS.XBOX.JOYPAD.DOWN "xbox").reverse_mode = false
    ∧ m.update_mode_flags (0, 0) "xbox" = m := by
  refine ⟨?_, ?_, ?_, rfl⟩ <;>
    simp [ManagerState.update_mode_flags, CONSTANTS.XBOX.JOYPAD.UP,
      CONSTANTS.XBOX.JOYPAD.DOWN, hsel]

/-- Witness for C6: a manager state whose Xbox map holds SELECT = ON. -/
theorem C6_reverse_mode_edge_trigger_witness :
    ((((ControllerState.mk [("xbox", [(12, 2)]), ("n64", [])]).values.lookup
        "xbox").getD []).lookup (CONSTANTS.XBOX.BUTTONS.SELECT + 6) =
      some CONSTANTS.XBOX.BUTTONS.ON)
    ∧ ((ManagerState.mk (ControllerState.mk [("xbox", [(12, 2)]), ("n64", [])])
        false false).update_mode_flags CONSTANTS.XBOX.JOYPAD.UP "xbox").reverse_mode = true :=
  ⟨by decide,
   (C6_reverse_mode_edge_trigger
     (ManagerState.mk (ControllerState.mk [("xbox", [(12, 2)]), ("n64", [])]) false false)
     (by decide)).1⟩

theorem natToBE_length (w n : Nat) : (natToBE w n).length = w := by
  induction w generalizing n with
  | zero => rfl
  | succ w ih => simp [natToBE, ih]

theorem beToNat_append_one (xs : List Nat) (b : Nat) :
    beToNat (xs ++ [b]) = 256 * beToNat xs + b := by
  simp [beToNat, List.foldl_append, Nat.mul_comm]

theorem beToNat_natToBE (w n : Nat) (h : n < 256 ^ w) :
    beToNat (natToBE w n) = n := by
  induction w generalizing n with
  | zero =>
    simp [natToBE, beToNat]
    omega
  | succ w ih =>
    rw [natToBE, beToNat_append_one, ih (n / 256) (by
      have : 256 ^ (w + 1) = 256 ^ w * 256 := by ring
      omega)]
    omega

theorem header_to_bytes_length (t mid ts plen : Nat) :
    (MessageHeader.to_bytes t mid ts plen).length = 15 := by
  simp [MessageHeader.to_bytes, natToBE_length]

/-- Embeds `from_bytes` recovers exactly what `to_bytes` packed (the header
round-trip behind both codec-path checks). -/
theorem header_roundtrip (t mid ts plen : Nat) (hm : mid < 256 ^ 4)
    (ht : ts < 256 ^ 8) (hp : plen < 256 ^ 2) :
    MessageHeader.from_bytes (MessageHeader.to_bytes t mid ts plen) =
      (t, mid, ts, plen) := by
  have la := natToBE_length 4 mid
  have lb := natToBE_length 8 ts
  have lc := natToBE_length 2 plen
  unfold MessageHeader.from_bytes MessageHeader.to_bytes
  simp only [List.headD, List.cons_append, List.drop_succ_cons, List.drop_zero,
    List.nil_append, List.append_assoc]
  have e2 : (natToBE 2 plen).take 2 = natToBE 2 plen :=
    lc ▸ List.take_length (natToBE 2 plen)
  rw [List.take_left' la, List.drop_left' la, show (12:Nat) = 4 + 8 from rfl,
    ← List.drop_drop, List.drop_left' la, List.drop_left' lb,
    List.take_left' lb, e2, beToNat_natToBE 4 mid hm,
    beToNat_natToBE 8 ts ht, beToNat_natToBE 2 plen hp]

/-- C8: encoding a `HeartbeatMessage` with the default status and decoding
the bytes with `MessageCodec.decode_message` (default registry) yields a
heartbeat message whose `status` is `"alive"` and whose `message_type` is the
HEARTBEAT tag `0x01`. -/
theorem C8_heartbeat_codec_roundtrip (mid ts : Nat) (hm : mid < 256 ^ 4)
    (ht : ts < 256 ^ 8) :
    MessageCodec.decode_message MessageCodec.initTags
        (heartbeatEncode mid ts "alive") =
      Except.ok (DecodedMessage.heartbeat (HeartbeatMsg.mk mid ts "alive"))
    ∧ (HeartbeatMsg.mk mid ts "alive").status = "alive"
    ∧ (HeartbeatMsg.mk mid ts "alive").message_type = MessageType.HEARTBEAT := by
  refine ⟨?_, rfl, rfl⟩
  have hplen : (heartbeatEncodePayload "alive").length = 19 := rfl
  have hhdr := header_to_bytes_length MessageType.HEARTBEAT mid ts 19
  have hrt := header_roundtrip MessageType.HEARTBEAT mid ts 19 hm ht (by norm_num)
  have hparse : parseStatusPayload (heartbeatEncodePayload "alive") = some "alive" := by
    decide
  unfold heartbeatEncode
  rw [hplen]
  unfold MessageCodec.decode_message heartbeatDecode
  rw [List.take_left' hhdr, List.drop_left' hhdr, hrt]
  have hlen : (MessageHeader.to_bytes MessageType.HEARTBEAT mid ts 19
      ++ heartbeatEncodePayload "alive").length = 34 := by
    rw [List.length_append, hhdr, hplen]
  rw [hlen]
  norm_num [MessageCodec.initTags, MessageType.HEARTBEAT, MessageType.CONTROLLER_DATA,
    MessageType.TELEMETRY, MessageType.COMMAND, MessageType.ERROR]
  rw [← hplen, List.take_length, hparse]
  rfl

/-- Witness for C8 at concrete header values. -/
theorem C8_heartbeat_codec_roundtrip_witness :
    (1000 : Nat) < 256 ^ 4
    ∧ MessageCodec.decode_message MessageCodec.initTags
        (heartbeatEncode 1000 7 "alive") =
      Except.ok (DecodedMessage.heartbeat (HeartbeatMsg.mk 1000 7 "alive")) :=
  ⟨by norm_num,
   (C8_heartbeat_codec_roundtrip 1000 7 (by norm_num) (by norm_num)).1⟩

/-- C9: `decode_message` reports a decode error to the caller instead of
crashing or constructing a message — inputs shorter than the 15-byte header
raise `ValueError("Message too short")`, and inputs of at least 15 bytes
whose type tag (byte 0) has no registered message class raise a `ValueError`
identifying the unknown type. -/
theorem C9_decode_error_reporting :
    (∀ (tags data : List Nat), data.length < 15 →
      MessageCodec.decode_message tags data = Except.error "Message too short")
    ∧ (∀ (tags data : List Nat), 15 ≤ data.length → data.headD 0 ∉ tags →
        MessageCodec.decode_message tags data =
          Except.error ("Unknown msg type: " ++ toString (data.headD 0))) := by
  constructor
  · intro tags data h
    unfold MessageCodec.decode_message
    rw [if_pos h]
  · intro tags data hlen htag
    have hhead : (data.take 15).headD 0 = data.headD 0 := by
      cases data with
      | nil => rfl
      | cons a l => simp [List.take_succ_cons]
    have h1 : (MessageHeader.from_bytes (data.take 15)).1 = data.headD 0 := by
      unfold MessageHeader.from_bytes
      exact hhead
    unfold MessageCodec.decode_message
    rw [if_neg (by omega), h1, if_pos htag]

/-- Witness for C9: a 14-byte frame and a 15-byte frame with unregistered
tag `0xFF` against the default registry. -/
theorem C9_decode_error_reporting_witness :
    (List.replicate 14 0).length < 15
    ∧ MessageCodec.decode_message MessageCodec.initTags (List.replicate 14 0) =
        Except.error "Message too short"
    ∧ (255 :: List.replicate 14 0).headD 0 ∉ MessageCodec.initTags
    ∧ MessageCodec.decode_message MessageCodec.initTags (255 :: List.replicate 14 0) =
        Except.error "Unknown msg type: 255" := by
  refine ⟨by decide, C9_decode_error_reporting.1 MessageCodec.initTags
    (List.replicate 14 0) (by decide), by decide, ?_⟩
  have h := C9_decode_error_reporting.2 MessageCodec.initTags
    (255 :: List.replicate 14 0) (by decide) (by decide)
  exact h.trans (congrArg Except.error (by decide))

/-- C10: for every controller-type string with no entry in the state's
`values` mapping — in particular every string other than `"xbox"` and
`"n64"` on any state keyed like the initial one — `update_value` is a silent
no-op leaving the entire state unchanged, and `get_controller_values`
returns the empty mapping. -/
theorem C10_unknown_controller_type_noop (s : ControllerState)
    (controller_type : String) (key value : Nat)
    (h : s.values.lookup controller_type = none) :
    s.update_value controller_type key value = s
    ∧ s.get_controller_values controller_type = [] := by
  constructor
  · unfold ControllerState.update_value
    rw [h]
    rfl
  · unfold ControllerState.get_controller_values
    rw [h]
    rfl

/-- Witness for C10: the initial state and the unmapped type `"wii"`. -/
theorem C10_unknown_controller_type_noop_witness :
    ControllerState.init.values.lookup "wii" = none
    ∧ ControllerState.init.update_value "wii" 0 2 = ControllerState.init
    ∧ ControllerState.init.get_controller_values "wii" = [] := by
  have h := C10_unknown_controller_type_noop ControllerState.init "wii" 0 2 (by decide)
  exact ⟨by decide, h.1, h.2⟩
